import Mathlib

/-!
# Function trace wrapper

A shallow embedding of `src/wrapper/py_function_trace.c`: the trace handle
(`NRFunctionTrace_*`), the callable proxy (`NRFunctionTraceWrapper_*`) and the
decorator (`NRFunctionTraceDecorator_*`); and of
`src/wrapper/py_wrapped_callable.c`: the wrapped callable (`NRWrappedCallable_*`).

Conventions of the embedding.

* A C pointer that may be `NULL` is an `Option`.
* Python objects are values of `PyObj`; proxies live on a heap and are named by
  their address, so that object identity is address equality.
* Everything outside the two source files (the interpreter's call and attribute
  protocols, the transaction collaborator, the naming helper) is a field of
  `Env`.  Each such field sees the log of events so far, so that it may answer
  differently from one moment to the next, and each consultation appends an
  event to the log.
* A function whose C text dereferences `NULL`, or whose attribute lookup does
  not come back within the recursion budget, has no result: `none`.
-/

namespace NewRelic

/-- A pointer to a trace node of the agent (`nr_transaction_node *`), never `NULL`. -/
abbrev NodeRef := Nat

/-- A pointer to an inner agent transaction (`nr_web_transaction *`), never `NULL`. -/
abbrev TxnRef := Nat

/-- Modelled from the spec: the states of a transaction, `transaction.state ->
PENDING, RUNNING, FINISHED`; the source names only `NR_TRANSACTION_STATE_RUNNING`. -/
inductive TransactionState
  | NR_TRANSACTION_STATE_PENDING
  | NR_TRANSACTION_STATE_RUNNING
  | NR_TRANSACTION_STATE_FINISHED
  deriving DecidableEq, Repr

/-- Modelled from the spec: the two fields of `NRTransactionObject` the source
reads, the inner agent transaction (`NULL` for a dummy transaction) and the
lifecycle state. -/
structure NRTransactionObject where
  transaction : Option TxnRef
  transaction_state : TransactionState
  deriving DecidableEq, Repr

/-- The fields of `NRFunctionTraceObject`. -/
structure NRFunctionTraceObject where
  parent_transaction : Option NRTransactionObject
  transaction_trace : Option NodeRef
  saved_trace_node : Option NodeRef
  interesting : Int
  deriving DecidableEq, Repr

/-- Python objects, as far as the source tells them apart. -/
inductive PyObj
  | Py_None
  | Py_True
  | Py_False
  | PyString (s : String)
  | PyUnicode (s : String)
  | PyExc_TypeError
  | PyExc_RuntimeError
  | PyExc_ValueError
  | NRTransaction (t : NRTransactionObject)
  | NRFunctionTrace (t : NRFunctionTraceObject)
  | NRFunctionTraceWrapper (addr : Nat)
  | object (id : Nat)
  deriving DecidableEq, Repr

/-- An error as a handler observes it: its normalised `(type, value, traceback)`
triple, `Py_None` standing for an absent value or traceback.  The interpreter's
error indicator is thereby taken up to normalisation: the triple is what
`PyErr_Fetch`, the two `Py_None` defaults of lines 573-581 and
`PyErr_NormalizeException` yield for it, and what `PyErr_Restore` puts back. -/
structure PyErr where
  type : PyObj
  value : PyObj
  traceback : PyObj
  deriving DecidableEq, Repr

/-- The keyword dictionary of a call; `none` is the `NULL` dictionary. -/
abbrev Kwds := Option (List (String × PyObj))

/-- A result of a function returning `PyObject *`: an object, or `NULL` with the
error indicator set. -/
abbrev Result := Except PyErr PyObj

/-- The fields of `NRFunctionTraceWrapperObject`. -/
structure NRFunctionTraceWrapperObject where
  dict : Option PyObj
  descr_object : Option PyObj
  self_object : Option PyObj
  next_object : Option PyObj
  last_object : Option PyObj
  name : Option PyObj
  scope : Option PyObj
  interesting : Int
  deriving DecidableEq, Repr

/-- The fields of `NRFunctionTraceDecoratorObject`. -/
structure NRFunctionTraceDecoratorObject where
  name : Option PyObj
  scope : Option PyObj
  interesting : Int
  deriving DecidableEq, Repr

/-- What the code does to the world outside it, in order. -/
inductive Event
  | Call (callee : PyObj) (args : List PyObj) (kwds : Kwds)
  | GetAttr (object : PyObj) (name : String)
  | SetAttr (object : PyObj) (name : String) (value : Option PyObj)
  | GenericGetAttr (self : Nat) (name : String)
  | CallableName (object : Option PyObj) (self : PyObj) (args : List PyObj) (separator : String)
  | allocate_function_node (transaction : TxnRef) (name : String)
      (class_name : Option String) (scope : String)
  | record_starttime_and_push_current (node : NodeRef)
  | record_stoptime_and_pop_current (node : NodeRef) (saved : Option NodeRef)
  | delete_if_not_slow_enough (node : NodeRef) (interesting : Int) (transaction : Option TxnRef)
  | convert_from_stack_based (node : NodeRef) (transaction : Option TxnRef)
  | FunctionTrace_call (args : List PyObj) (kwds : Kwds)
  | FunctionTrace_enter
  | FunctionTrace_exit (args : List PyObj)
  | WriteUnraisable (error : PyErr)
  deriving DecidableEq, Repr

/-- The collaborators of the source, each a function of the events so far. -/
structure Env where
  /-- `NRTransaction_CurrentTransaction`, `none` when no transaction is current. -/
  currentTransaction : List Event → Option NRTransactionObject
  /-- The interpreter calling an object (`PyObject_Call`). -/
  call : List Event → PyObj → List PyObj → Kwds → Result
  /-- Attribute read on an object that is not a proxy. -/
  getattr : List Event → PyObj → String → Result
  /-- Attribute write on an object that is not a proxy; the value `NULL` deletes
  the attribute. -/
  setattr : List Event → PyObj → String → Option PyObj → Except PyErr Unit
  /-- `PyObject_GenericGetAttr` on a proxy for a name outside the proxy's own
  accessor table: the instance dictionary and the attributes of the type. -/
  genericGetAttr : List Event → Nat → Option PyObj → String → Result
  /-- `NRUtilities_CallableName`. -/
  callableName : List Event → Option PyObj → PyObj → List PyObj → String → PyObj
  /-- `nr_web_transaction__allocate_function_node`. -/
  allocateFunctionNode : List Event → TxnRef → String → Option String → String → NodeRef
  /-- The cursor that `nr_node_header__record_starttime_and_push_current` saves. -/
  pushCurrent : List Event → NodeRef → Option NodeRef
  /-- `nr_node_header__delete_if_not_slow_enough`, true when the node was discarded. -/
  deleteIfNotSlowEnough : List Event → NodeRef → Int → Option TxnRef → Bool
  /-- The `tp_name` of the type of an object the model does not tell apart. -/
  typeName : Nat → String

/-- The heap of proxies, the next free address, and the events so far. -/
structure World where
  heap : Nat → NRFunctionTraceWrapperObject
  next : Nat
  log : List Event

/-- Append an event to the log. -/
def World.emit (w : World) (e : Event) : World :=
  { w with log := w.log ++ [e] }

/-- Overwrite the proxy at an address. -/
def World.store (w : World) (addr : Nat) (p : NRFunctionTraceWrapperObject) : World :=
  { w with heap := fun a => if a = addr then p else w.heap a }

/-! ## Interpreter primitives -/

/-- `PyString_Check`. -/
def PyString_Check : PyObj → Bool
  | .PyString _ => true
  | _ => false

/-- `PyUnicode_Check`. -/
def PyUnicode_Check : PyObj → Bool
  | .PyUnicode _ => true
  | _ => false

/-- The test behind the `O!` format unit with `&PyBool_Type`. -/
def PyBool_Check : PyObj → Bool
  | .Py_True => true
  | .Py_False => true
  | _ => false

/-- The characters of a byte string, or of the UTF-8 encoding of a Unicode
string (`PyString_AsString`, after `PyUnicode_AsUTF8String` where needed). -/
def PyString_AsString : PyObj → String
  | .PyString s => s
  | .PyUnicode s => s
  | _ => ""

/-- The `tp_name` of the type of an object. -/
def tp_name (env : Env) : PyObj → String
  | .Py_None => "NoneType"
  | .Py_True => "bool"
  | .Py_False => "bool"
  | .PyString _ => "str"
  | .PyUnicode _ => "unicode"
  | .PyExc_TypeError => "type"
  | .PyExc_RuntimeError => "type"
  | .PyExc_ValueError => "type"
  | .NRTransaction _ => "_newrelic.Transaction"
  | .NRFunctionTrace _ => "_newrelic.FunctionTrace"
  | .NRFunctionTraceWrapper _ => "_newrelic.FunctionTraceWrapper"
  | .object id => env.typeName id

/-- `PyErr_SetString` and `PyErr_Format`: the error a function leaves behind,
its value given by the message. -/
def PyErr_SetString (type : PyObj) (message : String) : PyErr :=
  ⟨type, .PyString message, .Py_None⟩

/-- The `TypeError` of a rejected argument list.  The interpreter words the
message; the model keeps the name given after the colon of the format. -/
def argumentError (fname : String) : PyErr :=
  PyErr_SetString .PyExc_TypeError fname

/-- The shape test of `PyArg_ParseTupleAndKeywords`: not more arguments than
the keyword list has names, every keyword known, and none given by position
as well. -/
def keywordsAccepted (kwlist : List String) (args : List PyObj) (kwds : Kwds) : Bool :=
  decide (args.length + (kwds.getD []).length ≤ kwlist.length) &&
  (kwds.getD []).all (fun p => kwlist.contains p.1 && decide (args.length ≤ kwlist.indexOf p.1))

/-- The argument that `PyArg_ParseTupleAndKeywords` stores for the i-th name of
the keyword list: the i-th positional argument or else the keyword of that
name; `none` leaves the C variable at its initial value. -/
def parsedArgument (kwlist : List String) (args : List PyObj) (kwds : Kwds) (i : Nat) :
    Option PyObj :=
  match args.get? i with
  | some a => some a
  | none => (kwlist.get? i).bind (fun k => (kwds.getD []).lookup k)

/-- `PyObject_Call`, and `PyObject_CallFunctionObjArgs` once its arguments are
listed.  The interpreter runs the callee; a nested activation of a proxy is the
callee's business.  Calling through `NULL` has no result. -/
def PyObject_Call (env : Env) (w : World) (callee : Option PyObj) (args : List PyObj)
    (kwds : Kwds) : Option (Result × World) :=
  match callee with
  | none => none
  | some f => some (env.call w.log f args kwds, w.emit (.Call f args kwds))

/-- The argument list of `PyObject_CallFunctionObjArgs`: it ends at the first `NULL`. -/
def objArgs : List (Option PyObj) → List PyObj
  | [] => []
  | none :: _ => []
  | some a :: rest => a :: objArgs rest

/-- `PyErr_WriteUnraisable`: report the pending error and clear it. -/
def PyErr_WriteUnraisable (w : World) (e : PyErr) : World :=
  w.emit (.WriteUnraisable e)

/-- `PyErr_Fetch` with the `Py_None` defaults and `PyErr_NormalizeException`. -/
def PyErr_Fetch (e : PyErr) : PyObj × PyObj × PyObj :=
  (e.type, e.value, e.traceback)

/-- `PyErr_Restore`. -/
def PyErr_Restore (type value traceback : PyObj) : PyErr :=
  ⟨type, value, traceback⟩

/-! ## Collaborators -/

/-- `NRTransaction_CurrentTransaction`. -/
def NRTransaction_CurrentTransaction (env : Env) (w : World) : Option NRTransactionObject :=
  env.currentTransaction w.log

/-- `NRUtilities_CallableName`, taken to return a name. -/
def NRUtilities_CallableName (env : Env) (w : World) (object : Option PyObj) (self : PyObj)
    (args : List PyObj) (separator : String) : PyObj × World :=
  (env.callableName w.log object self args separator,
    w.emit (.CallableName object self args separator))

/-- `nr_web_transaction__allocate_function_node`, which returns a node. -/
def nr_web_transaction__allocate_function_node (env : Env) (w : World) (transaction : TxnRef)
    (name : String) (class_name : Option String) (scope : String) : NodeRef × World :=
  (env.allocateFunctionNode w.log transaction name class_name scope,
    w.emit (.allocate_function_node transaction name class_name scope))

/-- `nr_node_header__record_starttime_and_push_current`: the result is the cursor
written through the second argument. -/
def nr_node_header__record_starttime_and_push_current (env : Env) (w : World)
    (node : NodeRef) : Option NodeRef × World :=
  (env.pushCurrent w.log node, w.emit (.record_starttime_and_push_current node))

/-- `nr_node_header__record_stoptime_and_pop_current`, given the saved cursor.
Whatever it writes through its second argument is overwritten at line 220. -/
def nr_node_header__record_stoptime_and_pop_current (w : World) (node : NodeRef)
    (saved : Option NodeRef) : World :=
  w.emit (.record_stoptime_and_pop_current node saved)

/-- `nr_node_header__delete_if_not_slow_enough`. -/
def nr_node_header__delete_if_not_slow_enough (env : Env) (w : World) (node : NodeRef)
    (interesting : Int) (transaction : Option TxnRef) : Bool × World :=
  (env.deleteIfNotSlowEnough w.log node interesting transaction,
    w.emit (.delete_if_not_slow_enough node interesting transaction))

/-- `nr_web_transaction__convert_from_stack_based`. -/
def nr_web_transaction__convert_from_stack_based (w : World) (node : NodeRef)
    (transaction : Option TxnRef) : World :=
  w.emit (.convert_from_stack_based node transaction)

/-! ## Trace handle (`NRFunctionTrace_*`) -/

/-- `NRFunctionTrace_new` (lines 19-41). -/
def NRFunctionTrace_new : NRFunctionTraceObject :=
  { parent_transaction := none, transaction_trace := none, saved_trace_node := none,
    interesting := 1 }

/-- `NRFunctionTrace_init` (lines 45-155).  The result is the return value
(`0`, or `-1` with the error), the handle afterwards and the world afterwards. -/
def NRFunctionTrace_init (env : Env) (w : World) (self : NRFunctionTraceObject)
    (args : List PyObj) (kwds : Kwds) : Except PyErr Unit × NRFunctionTraceObject × World :=
  let kwlist := ["transaction", "name", "scope", "interesting"]
  if !keywordsAccepted kwlist args kwds then
    (.error (argumentError "FunctionTrace"), self, w)
  else
    match parsedArgument kwlist args kwds 0, parsedArgument kwlist args kwds 1 with
    | some (.NRTransaction transaction), some name =>
      let scope := (parsedArgument kwlist args kwds 2).getD .Py_None
      let interesting := (parsedArgument kwlist args kwds 3).getD .Py_True
      if !PyBool_Check interesting then
        (.error (argumentError "FunctionTrace"), self, w)
      else if !PyString_Check name && !PyUnicode_Check name then
        (.error (PyErr_SetString .PyExc_TypeError
          ("expected string or Unicode for name, found type '" ++ tp_name env name ++ "'")), self, w)
      else if !PyString_Check scope && !PyUnicode_Check scope && scope != .Py_None then
        (.error (PyErr_SetString .PyExc_TypeError
          ("scope argument must be string, Unicode, or None, found type '" ++
            tp_name env scope ++ "'")), self, w)
      else if self.parent_transaction.isSome then
        (.error (PyErr_SetString .PyExc_TypeError "trace already initialized"), self, w)
      else if transaction.transaction_state != .NR_TRANSACTION_STATE_RUNNING then
        (.error (PyErr_SetString .PyExc_RuntimeError "transaction not active"), self, w)
      else
        let self1 := { self with parent_transaction := some transaction }
        match transaction.transaction with
        | some inner =>
          let name_as_char := PyString_AsString name
          let scope_as_char :=
            if scope = .Py_None then "Function" else PyString_AsString scope
          let (node, w1) := nr_web_transaction__allocate_function_node env w inner
            name_as_char none scope_as_char
          (.ok (), { self1 with
              transaction_trace := some node,
              interesting := if interesting = .Py_True then 1 else 0 }, w1)
        | none => (.ok (), self1, w)
    | _, _ => (.error (argumentError "FunctionTrace"), self, w)

/-- Calling the type `NRFunctionTrace_Type`: `tp_new`, then `tp_init`; the new
object is dropped when `tp_init` fails.  The invocation itself is recorded as
`FunctionTrace_call`. -/
def NRFunctionTrace_Type_call (env : Env) (w : World) (args : List PyObj) (kwds : Kwds) :
    Except PyErr NRFunctionTraceObject × World :=
  match NRFunctionTrace_init env (w.emit (.FunctionTrace_call args kwds)) NRFunctionTrace_new
      args kwds with
  | (.ok _, self, w1) => (.ok self, w1)
  | (.error e, _, w1) => (.error e, w1)

/-- `NRFunctionTrace_enter` (lines 168-182), the method `__enter__`.  The result
is the return value, the handle afterwards and the world afterwards; the
invocation itself is recorded as `FunctionTrace_enter`. -/
def NRFunctionTrace_enter (env : Env) (w : World) (self : NRFunctionTraceObject) :
    Result × NRFunctionTraceObject × World :=
  let w0 := w.emit .FunctionTrace_enter
  match self.transaction_trace with
  | none => (.ok (.NRFunctionTrace self), self, w0)
  | some transaction_trace =>
    let (saved, w1) := nr_node_header__record_starttime_and_push_current env w0
      transaction_trace
    let self1 := { self with saved_trace_node := saved }
    (.ok (.NRFunctionTrace self1), self1, w1)

/-- `NRFunctionTrace_exit` (lines 186-224), the method `__exit__`; its arguments
are accepted and not looked at.  The invocation itself is recorded as
`FunctionTrace_exit`.  With a node and no parent transaction the C text
dereferences `NULL`. -/
def NRFunctionTrace_exit (env : Env) (w : World) (self : NRFunctionTraceObject)
    (args : List PyObj) : Option (Result × NRFunctionTraceObject × World) :=
  let w0 := w.emit (.FunctionTrace_exit args)
  match self.transaction_trace with
  | none => some (.ok .Py_None, self, w0)
  | some transaction_trace =>
    let w1 := nr_node_header__record_stoptime_and_pop_current w0 transaction_trace
      self.saved_trace_node
    match self.parent_transaction with
    | none => none
    | some parent_transaction =>
      let transaction := parent_transaction.transaction
      let (deleted, w2) := nr_node_header__delete_if_not_slow_enough env w1
        transaction_trace self.interesting transaction
      let w3 := if !deleted then
          nr_web_transaction__convert_from_stack_based w2 transaction_trace transaction
        else w2
      some (.ok .Py_None, { self with saved_trace_node := none }, w3)

/-! ## Callable proxy (`NRFunctionTraceWrapper_*`) -/

/-- The state `NRFunctionTraceWrapper_new` leaves a fresh object in (lines 294-301). -/
def NRFunctionTraceWrapper_blank : NRFunctionTraceWrapperObject :=
  { dict := none, descr_object := none, self_object := none, next_object := none,
    last_object := none, name := none, scope := none, interesting := 1 }

/-- `tp_alloc` of the proxy type: a fresh address holding a zeroed object.
Memory is taken not to run out. -/
def tp_alloc (w : World) : Nat × World :=
  (w.next, { (w.store w.next { NRFunctionTraceWrapper_blank with interesting := 0 }) with
    next := w.next + 1 })

/-- `NRFunctionTraceWrapper_new` (lines 284-304). -/
def NRFunctionTraceWrapper_new (w : World) : Nat × World :=
  let (self, w1) := tp_alloc w
  (self, w1.store self NRFunctionTraceWrapper_blank)

/-- The error of a proxy that has no `last_object`. -/
def notInitialised : PyErr :=
  PyErr_SetString .PyExc_ValueError "object wrapper has not been initialised"

/-- An attribute read on any object, as the proxy code sees it. -/
abbrev GetAttrFn := World → PyObj → String → Option (Result × World)

/-- `NRFunctionTraceWrapper_get_next` (lines 606-616). -/
def NRFunctionTraceWrapper_get_next (self : NRFunctionTraceWrapperObject) : Result :=
  match self.next_object with
  | none => .ok .Py_None
  | some o => .ok o

/-- `NRFunctionTraceWrapper_get_last` (lines 620-630). -/
def NRFunctionTraceWrapper_get_last (self : NRFunctionTraceWrapperObject) : Result :=
  match self.last_object with
  | none => .ok .Py_None
  | some o => .ok o

/-- `NRFunctionTraceWrapper_get_marker` (lines 634-639). -/
def NRFunctionTraceWrapper_get_marker (_self : NRFunctionTraceWrapperObject) : Result :=
  .ok .Py_None

/-- `NRFunctionTraceWrapper_get_module` (lines 643-653). -/
def NRFunctionTraceWrapper_get_module (getattr : GetAttrFn) (w : World)
    (self : NRFunctionTraceWrapperObject) : Option (Result × World) :=
  match self.last_object with
  | none => some (.error notInitialised, w)
  | some last_object => getattr w last_object "__module__"

/-- `NRFunctionTraceWrapper_get_name` (lines 657-667). -/
def NRFunctionTraceWrapper_get_name (getattr : GetAttrFn) (w : World)
    (self : NRFunctionTraceWrapperObject) : Option (Result × World) :=
  match self.last_object with
  | none => some (.error notInitialised, w)
  | some last_object => getattr w last_object "__name__"

/-- `NRFunctionTraceWrapper_get_doc` (lines 671-681). -/
def NRFunctionTraceWrapper_get_doc (getattr : GetAttrFn) (w : World)
    (self : NRFunctionTraceWrapperObject) : Option (Result × World) :=
  match self.last_object with
  | none => some (.error notInitialised, w)
  | some last_object => getattr w last_object "__doc__"

/-- `NRFunctionTraceWrapper_get_dict` (lines 685-700). -/
def NRFunctionTraceWrapper_get_dict (getattr : GetAttrFn) (w : World)
    (self : NRFunctionTraceWrapperObject) : Option (Result × World) :=
  match self.last_object with
  | none => some (.error notInitialised, w)
  | some last_object =>
    match self.dict with
    | some dict => some (.ok dict, w)
    | none => getattr w last_object "__dict__"

/-- `PyObject_GenericGetAttr` on a proxy.  The accessors of
`NRFunctionTraceWrapper_getset` (lines 812-828) are data descriptors of the
type and come first; any other name is looked up by the interpreter in the
instance dictionary and in the type. -/
def PyObject_GenericGetAttr (env : Env) (getattr : GetAttrFn) (w : World) (self : Nat)
    (name : String) : Option (Result × World) :=
  if name = "__next_object__" then some (NRFunctionTraceWrapper_get_next (w.heap self), w)
  else if name = "__last_object__" then some (NRFunctionTraceWrapper_get_last (w.heap self), w)
  else if name = "__newrelic__" then some (NRFunctionTraceWrapper_get_marker (w.heap self), w)
  else if name = "__module__" then NRFunctionTraceWrapper_get_module getattr w (w.heap self)
  else if name = "__name__" then NRFunctionTraceWrapper_get_name getattr w (w.heap self)
  else if name = "__doc__" then NRFunctionTraceWrapper_get_doc getattr w (w.heap self)
  else if name = "__dict__" then NRFunctionTraceWrapper_get_dict getattr w (w.heap self)
  else some (env.genericGetAttr w.log self (w.heap self).dict name,
    w.emit (.GenericGetAttr self name))

/-- `NRFunctionTraceWrapper_getattro` (lines 704-723). -/
def NRFunctionTraceWrapper_getattro (env : Env) (getattr : GetAttrFn) (w : World) (self : Nat)
    (name : String) : Option (Result × World) :=
  match (w.heap self).last_object with
  | none => some (.error notInitialised, w)
  | some last_object =>
    match PyObject_GenericGetAttr env getattr w self name with
    | none => none
    | some (.ok object, w1) => some (.ok object, w1)
    | some (.error _, w1) => getattr w1 last_object name

/-- `PyObject_GetAttr` and `PyObject_GetAttrString`: a proxy answers through its
`tp_getattro`, any other object through the interpreter.  The first argument
bounds the depth of proxies answering for proxies. -/
def PyObject_GetAttr (env : Env) : Nat → GetAttrFn
  | fuel, w, .NRFunctionTraceWrapper self, name =>
    match fuel with
    | 0 => none
    | n + 1 => NRFunctionTraceWrapper_getattro env (PyObject_GetAttr env n) w self name
  | _, w, object, name => some (env.getattr w.log object name, w.emit (.GetAttr object name))

/-- An attribute write on any object, as the proxy code sees it. -/
abbrev SetAttrFn := World → PyObj → String → Option PyObj → Option (Except PyErr Unit × World)

/-- `NRFunctionTraceWrapper_setattro` (lines 727-737). -/
def NRFunctionTraceWrapper_setattro (setattr : SetAttrFn) (w : World) (self : Nat)
    (name : String) (value : Option PyObj) : Option (Except PyErr Unit × World) :=
  match (w.heap self).last_object with
  | none => some (.error notInitialised, w)
  | some last_object => setattr w last_object name value

/-- `PyObject_SetAttr`: a proxy answers through its `tp_setattro`, any other
object through the interpreter.  The first argument bounds the depth of
proxies answering for proxies. -/
def PyObject_SetAttr (env : Env) : Nat → SetAttrFn
  | fuel, w, .NRFunctionTraceWrapper self, name, value =>
    match fuel with
    | 0 => none
    | n + 1 => NRFunctionTraceWrapper_setattro (PyObject_SetAttr env n) w self name value
  | _, w, object, name, value =>
    some (env.setattr w.log object name value, w.emit (.SetAttr object name value))

/-- Lines 344-362 of `NRFunctionTraceWrapper_init`: the object to become
`last_object`.  When the wrapped object has the attribute `__newrelic__` and
the attribute `__last_object__`, it is the value of the latter; otherwise it
is the wrapped object. -/
def NRFunctionTraceWrapper_init_last (env : Env) (fuel : Nat) (w : World)
    (wrapped_object : PyObj) : Option (PyObj × World) :=
  match PyObject_GetAttr env fuel w wrapped_object "__newrelic__" with
  | none => none
  | some (.error _, w1) => some (wrapped_object, w1)
  | some (.ok _, w1) =>
    match PyObject_GetAttr env fuel w1 wrapped_object "__last_object__" with
    | none => none
    | some (.ok object, w2) => some (object, w2)
    | some (.error _, w2) => some (wrapped_object, w2)

/-- `NRFunctionTraceWrapper_init` (lines 308-385), on the proxy at address `self`. -/
def NRFunctionTraceWrapper_init (env : Env) (fuel : Nat) (w : World) (self : Nat)
    (args : List PyObj) (kwds : Kwds) : Option (Except PyErr Unit × World) :=
  let kwlist := ["wrapped", "name", "scope", "interesting"]
  if !keywordsAccepted kwlist args kwds then
    some (.error (argumentError "FunctionTraceWrapper"), w)
  else
    match parsedArgument kwlist args kwds 0 with
    | none => some (.error (argumentError "FunctionTraceWrapper"), w)
    | some wrapped_object =>
      let name := (parsedArgument kwlist args kwds 1).getD .Py_None
      let scope := (parsedArgument kwlist args kwds 2).getD .Py_None
      let interesting := (parsedArgument kwlist args kwds 3).getD .Py_True
      if !PyBool_Check interesting then
        some (.error (argumentError "FunctionTraceWrapper"), w)
      else
        let w1 := w.store self { (w.heap self) with
          descr_object := none, self_object := none,
          next_object := some wrapped_object, last_object := none, dict := none }
        match NRFunctionTraceWrapper_init_last env fuel w1 wrapped_object with
        | none => none
        | some (last_object, w2) =>
          let w3 := w2.store self { (w2.heap self) with last_object := some last_object }
          match PyObject_GetAttr env fuel w3 last_object "__dict__" with
          | none => none
          | some (object, w4) =>
            let w5 := match object with
              | .ok dict => w4.store self { (w4.heap self) with dict := some dict }
              | .error _ => w4
            some (.ok (), w5.store self { (w5.heap self) with
              name := some name, scope := some scope,
              interesting := if interesting = .Py_True then 1 else 0 })

/-- Calling the type `NRFunctionTraceWrapper_Type`, the `wrap` of the
specification: `tp_new`, then `tp_init`. -/
def NRFunctionTraceWrapper_Type_call (env : Env) (fuel : Nat) (w : World) (args : List PyObj)
    (kwds : Kwds) : Option (Result × World) :=
  let (self, w1) := NRFunctionTraceWrapper_new w
  match NRFunctionTraceWrapper_init env fuel w1 self args kwds with
  | none => none
  | some (.ok _, w2) => some (.ok (.NRFunctionTraceWrapper self), w2)
  | some (.error e, w2) => some (.error e, w2)

/-- The name of the trace, lines 438-487 of `NRFunctionTraceWrapper_call`. -/
def NRFunctionTraceWrapper_call_name (env : Env) (w : World) (self : Nat)
    (args : List PyObj) (kwds : Kwds) : Option (Result × World) :=
  let p := w.heap self
  match p.name with
  | none => none
  | some name =>
    if name = .Py_None then
      let (derived, w1) := NRUtilities_CallableName env w p.next_object
        (.NRFunctionTraceWrapper self) args ":"
      some (.ok derived, w1)
    else if PyString_Check name || PyUnicode_Check name then
      some (.ok name, w)
    else
      match p.descr_object with
      | some _ =>
        match p.self_object with
        | none => none
        | some self_object => PyObject_Call env w (some name) (self_object :: args) kwds
      | none => PyObject_Call env w (some name) args kwds

/-- The scope of the trace, lines 489-509 of `NRFunctionTraceWrapper_call`. -/
def NRFunctionTraceWrapper_call_scope (env : Env) (w : World) (self : Nat)
    (args : List PyObj) (kwds : Kwds) : Option (Result × World) :=
  let p := w.heap self
  match p.scope with
  | none => none
  | some scope =>
    if scope = .Py_None then
      some (.ok scope, w)
    else if PyString_Check scope || PyUnicode_Check scope then
      some (.ok scope, w)
    else
      PyObject_Call env w (some scope) args kwds

/-- The wrapped call, written twice in `NRFunctionTraceWrapper_call`
(lines 430-433 and 541-544). -/
def NRFunctionTraceWrapper_call_wrapped (env : Env) (w : World) (self : Nat)
    (args : List PyObj) (kwds : Kwds) : Option (Result × World) :=
  match (w.heap self).descr_object with
  | some descr_object => PyObject_Call env w (some descr_object) args kwds
  | none => PyObject_Call env w (w.heap self).next_object args kwds

/-- Calling a method of the trace handle and reporting its error, if any,
through `PyErr_WriteUnraisable` (lines 526-531, 556-561, 586-591). -/
def reportUnraisable (method_result : Result) (w : World) : World :=
  match method_result with
  | .error e => PyErr_WriteUnraisable w e
  | .ok _ => w

/-- Lines 511-602 of `NRFunctionTraceWrapper_call`: create the trace handle,
enter it, call the wrapped object, exit the handle. -/
def NRFunctionTraceWrapper_call_traced (env : Env) (w : World) (self : Nat)
    (current_transaction : NRTransactionObject) (name scope : PyObj)
    (args : List PyObj) (kwds : Kwds) : Option (Result × World) :=
  match NRFunctionTrace_Type_call env w
      [.NRTransaction current_transaction, name, scope,
        if (w.heap self).interesting ≠ 0 then .Py_True else .Py_False] none with
  | (.error e, w1) => some (.error e, w1)
  | (.ok function_trace, w1) =>
    let (entered, function_trace1, w2) := NRFunctionTrace_enter env w1 function_trace
    let w3 := reportUnraisable entered w2
    match NRFunctionTraceWrapper_call_wrapped env w3 self args kwds with
    | none => none
    | some (.ok wrapped_result, w4) =>
      match NRFunctionTrace_exit env w4 function_trace1 [.Py_None, .Py_None, .Py_None] with
      | none => none
      | some (exited, _, w5) => some (.ok wrapped_result, reportUnraisable exited w5)
    | some (.error e, w4) =>
      let (type, value, traceback) := PyErr_Fetch e
      match NRFunctionTrace_exit env w4 function_trace1 [type, value, traceback] with
      | none => none
      | some (exited, _, w5) =>
        some (.error (PyErr_Restore type value traceback), reportUnraisable exited w5)

/-- `NRFunctionTraceWrapper_call` (lines 407-602), on the proxy at address `self`. -/
def NRFunctionTraceWrapper_call (env : Env) (w : World) (self : Nat) (args : List PyObj)
    (kwds : Kwds) : Option (Result × World) :=
  match NRTransaction_CurrentTransaction env w with
  | none => NRFunctionTraceWrapper_call_wrapped env w self args kwds
  | some current_transaction =>
    match NRFunctionTraceWrapper_call_name env w self args kwds with
    | none => none
    | some (.error e, w1) => some (.error e, w1)
    | some (.ok name, w1) =>
      match NRFunctionTraceWrapper_call_scope env w1 self args kwds with
      | none => none
      | some (.error e, w2) => some (.error e, w2)
      | some (.ok scope, w2) =>
        NRFunctionTraceWrapper_call_traced env w2 self current_transaction name scope
          args kwds

/-- `NRFunctionTraceWrapper_descr_get` (lines 741-808), on the proxy at address
`self`; `object` and `type` may be `NULL`. -/
def NRFunctionTraceWrapper_descr_get (env : Env) (fuel : Nat) (w : World) (self : Nat)
    (object type : Option PyObj) : Option (Result × World) :=
  if object = some .Py_None then
    some (.ok (.NRFunctionTraceWrapper self), w)
  else
    match (w.heap self).next_object with
    | none => none
    | some next_object =>
      match PyObject_GetAttr env fuel w next_object "__get__" with
      | none => none
      | some (.ok method, w1) =>
        match PyObject_Call env w1 (some method) (objArgs [object, type]) none with
        | none => none
        | some (descr, w2) =>
          let (result, w3) := tp_alloc w2
          let w4 := w3.store result { (w3.heap result) with
            dict := (w3.heap self).dict,
            descr_object := descr.toOption,
            self_object := object,
            next_object := (w3.heap self).next_object,
            last_object := (w3.heap self).last_object,
            name := (w3.heap self).name,
            scope := (w3.heap self).scope,
            interesting := (w3.heap self).interesting }
          match descr with
          | .error _ => none
          | .ok _ => some (.ok (.NRFunctionTraceWrapper result), w4)
      | some (.error _, w1) => some (.ok (.NRFunctionTraceWrapper self), w1)

/-! ## Decorator (`NRFunctionTraceDecorator_*`) -/

/-- `NRFunctionTraceDecorator_new` (lines 876-891). -/
def NRFunctionTraceDecorator_new : NRFunctionTraceDecoratorObject :=
  { name := none, scope := none, interesting := 1 }

/-- `NRFunctionTraceDecorator_init` (lines 895-924). -/
def NRFunctionTraceDecorator_init (self : NRFunctionTraceDecoratorObject)
    (args : List PyObj) (kwds : Kwds) : Except PyErr Unit × NRFunctionTraceDecoratorObject :=
  let kwlist := ["name", "scope", "interesting"]
  if !keywordsAccepted kwlist args kwds then
    (.error (argumentError "FunctionTraceDecorator"), self)
  else
    let name := (parsedArgument kwlist args kwds 0).getD .Py_None
    let scope := (parsedArgument kwlist args kwds 1).getD .Py_None
    let interesting := (parsedArgument kwlist args kwds 2).getD .Py_True
    if !PyBool_Check interesting then
      (.error (argumentError "FunctionTraceDecorator"), self)
    else
      (.ok (), { self with
        name := some name, scope := some scope,
        interesting := if interesting = .Py_True then 1 else 0 })

/-- `NRFunctionTraceDecorator_call` (lines 939-955). -/
def NRFunctionTraceDecorator_call (env : Env) (fuel : Nat) (w : World)
    (self : NRFunctionTraceDecoratorObject) (args : List PyObj) (kwds : Kwds) :
    Option (Result × World) :=
  let kwlist := ["wrapped"]
  if !keywordsAccepted kwlist args kwds then
    some (.error (argumentError "FunctionTraceDecorator"), w)
  else
    match parsedArgument kwlist args kwds 0 with
    | none => some (.error (argumentError "FunctionTraceDecorator"), w)
    | some wrapped_object =>
      NRFunctionTraceWrapper_Type_call env fuel w
        (objArgs [some wrapped_object, self.name, self.scope,
          some (if self.interesting ≠ 0 then .Py_True else .Py_False)]) none

/-! ## Wrapped callable (`NRWrappedCallable_*`, `src/wrapper/py_wrapped_callable.c`) -/

/-- The fields of `NRWrappedCallableObject`. -/
structure NRWrappedCallableObject where
  wrapped_object : Option PyObj
  function_type : Int
  function_object : Option PyObj
  run_once : Int
  deriving DecidableEq, Repr

/-- The two constants that `function_type` is compared with.  They are declared
in `py_wrapped_callable.h`, which is not among the sources, and are therefore
parameters of the embedding. -/
structure FunctionTypes where
  NR_FUNCTION_TYPE_PRE_FUNCTION : Int
  NR_FUNCTION_TYPE_POST_FUNCTION : Int

/-- `NRWrappedCallable_new` (lines 13-30). -/
def NRWrappedCallable_new : NRWrappedCallableObject :=
  { wrapped_object := none, function_type := 0, function_object := none, run_once := 0 }

/-- Lines 60-80 of `NRWrappedCallable_call`: the wrapped call and, for a post
function, the call of the function after it.  The result of the wrapped call is
taken to outlive the call of the post function. -/
def NRWrappedCallable_call_wrapped (k : FunctionTypes) (env : Env) (w : World)
    (self : NRWrappedCallableObject) (args : List PyObj) (kwds : Kwds) :
    Option (Result × World) :=
  match PyObject_Call env w self.wrapped_object args kwds with
  | none => none
  | some (result, w1) =>
    if self.function_type = k.NR_FUNCTION_TYPE_POST_FUNCTION then
      match PyObject_Call env w1 self.function_object args kwds with
      | none => none
      | some (.error e, w2) => some (.error e, w2)
      | some (.ok _, w2) => some (result, w2)
    else some (result, w1)

/-- `NRWrappedCallable_call` (lines 44-81). -/
def NRWrappedCallable_call (k : FunctionTypes) (env : Env) (w : World)
    (self : NRWrappedCallableObject) (args : List PyObj) (kwds : Kwds) :
    Option (Result × World) :=
  if self.function_type = k.NR_FUNCTION_TYPE_PRE_FUNCTION then
    match PyObject_Call env w self.function_object args kwds with
    | none => none
    | some (.error e, w1) => some (.error e, w1)
    | some (.ok _, w1) => NRWrappedCallable_call_wrapped k env w1 self args kwds
  else NRWrappedCallable_call_wrapped k env w self args kwds

/-- The owner of the attribute to replace, as lines 178-192 of
`NRWrappedCallable_WrapPreFunction` inspect it. -/
structure ParentObject where
  /-- The owner itself. -/
  object : PyObj
  /-- `PyModule_Check(parent_object)`. -/
  isModule : Bool
  /-- `PyType_Check(parent_object)`. -/
  isType : Bool
  /-- `Py_TPFLAGS_HEAPTYPE` in the `tp_flags` of the owner itself: the owner is a
  type defined in Python rather than a builtin or C extension type. -/
  heapType : Bool
  /-- `Py_TPFLAGS_HEAPTYPE` in `parent_object->ob_type->tp_flags`, the flags of
  the type of the owner. -/
  typeOfIsHeapType : Bool
  deriving DecidableEq, Repr

/-- What `NRWrappedCallable_WrapPreFunction` does to the world outside it. -/
inductive InstallEvent
  | LookupCallable (module_name : String) (class_name : Option String) (name : String)
  | ModuleDict_SetItemString (module : PyObj) (attribute_name : String)
      (wrapper : NRWrappedCallableObject)
  | TypeDict_SetItemString (type : PyObj) (attribute_name : String)
      (wrapper : NRWrappedCallableObject)
  | SetAttrString (parent : PyObj) (attribute_name : String)
      (wrapper : NRWrappedCallableObject)
  deriving DecidableEq, Repr

/-- The collaborators of `NRWrappedCallable_WrapPreFunction`. -/
structure InstallEnv where
  /-- `NRUtilities_LookupCallable`: the callable with its owner and attribute
  name, or `NULL` with an error. -/
  lookupCallable : List InstallEvent → String → Option String → String →
    Except PyErr (PyObj × ParentObject × String)
  /-- `PyObject_SetAttrString` on the owner. -/
  setAttrString : List InstallEvent → PyObj → String → NRWrappedCallableObject →
    Except PyErr Unit

/-- `NRWrappedCallable_WrapPreFunction` (lines 147-229); `class_name` may be
`NULL`.  The wrapper object is taken to be allocated, and the results of the two
`PyDict_SetItemString` calls are not looked at, as in the source. -/
def NRWrappedCallable_WrapPreFunction (k : FunctionTypes) (env : InstallEnv)
    (log : List InstallEvent) (module_name : String) (class_name : Option String)
    (name : String) (function : PyObj) (run_once : Int) : Result × List InstallEvent :=
  let log1 := log ++ [.LookupCallable module_name class_name name]
  match env.lookupCallable log module_name class_name name with
  | .error e => (.error e, log1)
  | .ok (callable_object, parent_object, attribute_name) =>
    let wrapper_object : NRWrappedCallableObject :=
      { NRWrappedCallable_new with
        wrapped_object := some callable_object,
        function_type := k.NR_FUNCTION_TYPE_PRE_FUNCTION,
        function_object := some function,
        run_once := run_once }
    if parent_object.isModule then
      (.ok callable_object,
        log1 ++ [.ModuleDict_SetItemString parent_object.object attribute_name wrapper_object])
    else if parent_object.isType && !parent_object.typeOfIsHeapType then
      (.ok callable_object,
        log1 ++ [.TypeDict_SetItemString parent_object.object attribute_name wrapper_object])
    else
      match env.setAttrString log1 parent_object.object attribute_name wrapper_object with
      | .error e =>
        (.error e, log1 ++ [.SetAttrString parent_object.object attribute_name wrapper_object])
      | .ok _ =>
        (.ok callable_object,
          log1 ++ [.SetAttrString parent_object.object attribute_name wrapper_object])

/-- The second world has the heap and the next free address of the first: only
the log may differ. -/
def Frame (w w' : World) : Prop := w'.heap = w.heap ∧ w'.next = w.next

/-- The events in which the interpreter runs a callable on behalf of the proxy:
a call of an object, and the creation, `__enter__` and `__exit__` of a trace
handle.  The remaining events are consultations of the collaborators. -/
def Event.isInvocation : Event → Bool
  | .Call _ _ _ => true
  | .FunctionTrace_call _ _ => true
  | .FunctionTrace_enter => true
  | .FunctionTrace_exit _ => true
  | _ => false

/-- The calls to the trace-tree collaborator. -/
def Event.isTraceTree : Event → Bool
  | .allocate_function_node _ _ _ _ => true
  | .record_starttime_and_push_current _ => true
  | .record_stoptime_and_pop_current _ _ => true
  | .delete_if_not_slow_enough _ _ _ => true
  | .convert_from_stack_based _ _ => true
  | _ => false

/-- The payload handed to `__exit__` for an outcome of the wrapped call
(lines 555 and 585). -/
def exitPayload : Result → List PyObj
  | .ok _ => [.Py_None, .Py_None, .Py_None]
  | .error e => [e.type, e.value, e.traceback]

/-- The object called by `NRFunctionTraceWrapper_call`: `descr_object` when it
is set, `next_object` otherwise (lines 430-433 and 541-544). -/
def wrappedTarget (p : NRFunctionTraceWrapperObject) : Option PyObj :=
  match p.descr_object with
  | some descr_object => some descr_object
  | none => p.next_object

/-- The significance flag as `NRFunctionTraceWrapper_call` hands it to the
trace handle (line 513). -/
def interestingFlag (p : NRFunctionTraceWrapperObject) : PyObj :=
  if p.interesting ≠ 0 then .Py_True else .Py_False

/-! ## Sample collaborators for the closed instances -/

/-- A running transaction with an inner agent transaction. -/
def sampleTransaction : NRTransactionObject :=
  { transaction := some 7, transaction_state := .NR_TRANSACTION_STATE_RUNNING }

/-- A world with no proxy allocated and nothing logged. -/
def emptyWorld : World :=
  { heap := fun _ => NRFunctionTraceWrapper_blank, next := 0, log := [] }

/-- Collaborators with no current transaction: every call answers with the
object numbered 1, and only the object numbered 0 has attributes. -/
def idleEnv : Env :=
  { currentTransaction := fun _ => none
    call := fun _ _ _ _ => .ok (.object 1)
    getattr := fun _ o _ =>
      if o = .object 0 then .ok (.object 2)
      else .error (PyErr_SetString .PyExc_TypeError "no attribute")
    setattr := fun _ _ _ _ => .ok ()
    genericGetAttr := fun _ _ _ _ => .error (PyErr_SetString .PyExc_TypeError "no attribute")
    callableName := fun _ _ _ _ _ => .PyString "callable"
    allocateFunctionNode := fun _ _ _ _ _ => 1
    pushCurrent := fun _ _ => none
    deleteIfNotSlowEnough := fun _ _ _ _ => false
    typeName := fun _ => "object" }

/-- The error of `raise ValueError("boom")`. -/
def boom : PyErr :=
  { type := .PyExc_ValueError, value := .PyString "boom", traceback := .Py_None }

/-- Collaborators with the given current transaction.  The object numbered 6
raises `ValueError("boom")` when called, the object numbered 9 answers `"ABC"`
to the single argument `"abc"` and the object numbered 3 otherwise, and any
other object returns its first argument.  Only the object numbered 5 has
attributes, namely `__doc__`, `__name__` and `__module__`.  Nodes are never
discarded. -/
def sampleEnv (current : Option NRTransactionObject) : Env :=
  { currentTransaction := fun _ => current
    call := fun _ callee args _ =>
      if callee = .object 6 then .error boom
      else if callee = .object 9 then
        (if args = [.PyString "abc"] then .ok (.PyString "ABC") else .ok (.object 3))
      else .ok (args.headD .Py_None)
    getattr := fun _ o name =>
      if o = .object 5 ∧ (name = "__doc__" ∨ name = "__name__" ∨ name = "__module__") then
        .ok (.PyString name)
      else .error (PyErr_SetString .PyExc_TypeError "no attribute")
    setattr := fun _ _ _ _ => .ok ()
    genericGetAttr := fun _ _ _ _ => .error (PyErr_SetString .PyExc_TypeError "no attribute")
    callableName := fun _ _ _ _ _ => .PyString "callable"
    allocateFunctionNode := fun _ _ _ _ _ => 1
    pushCurrent := fun _ _ => none
    deleteIfNotSlowEnough := fun _ _ _ _ => false
    typeName := fun _ => "object" }

/-- A transaction that has not been started. -/
def pendingTransaction : NRTransactionObject :=
  { transaction := some 7, transaction_state := .NR_TRANSACTION_STATE_PENDING }

/-- A proxy as `NRFunctionTraceWrapper_init` leaves it for a target without
attributes, with the given name and scope specifications. -/
def plainProxy (target name scope : PyObj) : NRFunctionTraceWrapperObject :=
  { dict := none, descr_object := none, self_object := none,
    next_object := some target, last_object := some target,
    name := some name, scope := some scope, interesting := 1 }

/-- A world whose only proxy, at address 0, is the given one. -/
def worldWith (p : NRFunctionTraceWrapperObject) : World :=
  { heap := fun a => if a = 0 then p else NRFunctionTraceWrapper_blank, next := 1, log := [] }

/-- The world that `wrap`, called in the given world with the given arguments,
leaves behind. -/
def wrappedFrom (env : Env) (w : World) (args : List PyObj) (kwds : Kwds) : World :=
  match NRFunctionTraceWrapper_Type_call env 1 w args kwds with
  | some (_, w1) => w1
  | none => w

/-- The world that `wrap`, called in the empty world with the given arguments,
leaves behind. -/
def wrappedWorld (env : Env) (args : List PyObj) (kwds : Kwds) : World :=
  wrappedFrom env emptyWorld args kwds

/-- The sample collaborators with a running, real current transaction. -/
def tracedEnv : Env := sampleEnv (some sampleTransaction)

/-- A world whose proxy at address 0 wraps the object numbered 6, which raises. -/
def boomWorld : World := worldWith (plainProxy (.object 6) .Py_None .Py_None)

/-- The sample collaborators with a current transaction that is not running. -/
def pendingEnv : Env := sampleEnv (some pendingTransaction)

/-- A world whose proxy at address 0 wraps the object numbered 5 under the
literal name "X". -/
def namedWorld : World := worldWith (plainProxy (.object 5) (.PyString "X") .Py_None)

/-- A trace handle of the sample transaction, backed by node 1 and started with
node 2 as the saved cursor. -/
def startedHandle : NRFunctionTraceObject :=
  { parent_transaction := some sampleTransaction, transaction_trace := some 1,
    saved_trace_node := some 2, interesting := 1 }

/-- Wrapping an object again and again: `wrapTimes n` is `wrap` applied `n`
times, each time with the object so far as the only argument. -/
def wrapTimes (env : Env) (fuel : Nat) : Nat → World → PyObj → Option (PyObj × World)
  | 0, w, f => some (f, w)
  | n + 1, w, f =>
    match wrapTimes env fuel n w f with
    | none => none
    | some (p, w1) =>
      match NRFunctionTraceWrapper_Type_call env fuel w1 [p] none with
      | some (.ok q, w2) => some (q, w2)
      | _ => none

/-- An object that is not a proxy. -/
def notProxy (o : PyObj) : Prop := ∀ a, o ≠ .NRFunctionTraceWrapper a

/-- The outcome of reading an attribute of an object that is not a proxy and,
when that read fails, of reading it once more. -/
def readTwice (env : Env) (w : World) (o : PyObj) (name : String) : Result × World :=
  match env.getattr w.log o name with
  | .ok v => (.ok v, w.emit (.GetAttr o name))
  | .error _ =>
    (env.getattr (w.log ++ [.GetAttr o name]) o name,
      (w.emit (.GetAttr o name)).emit (.GetAttr o name))

/-- The arguments `NRFunctionTraceWrapper_call` hands to a name callable: the
original arguments, after the captured `self_object` when the proxy is
descriptor-bound (lines 452-483). -/
def reconstructedArgs (p : NRFunctionTraceWrapperObject) (args : List PyObj) :
    Option (List PyObj) :=
  match p.descr_object with
  | some _ => p.self_object.map (fun self_object => self_object :: args)
  | none => some args

/-- A descriptor-bound proxy: the function numbered 5 bound to the instance
numbered 12, the bound method being the object numbered 11. -/
def boundProxy (name scope : PyObj) : NRFunctionTraceWrapperObject :=
  { dict := none, descr_object := some (.object 11), self_object := some (.object 12),
    next_object := some (.object 5), last_object := some (.object 5),
    name := some name, scope := some scope, interesting := 1 }

/-- The decorator `configure_decorator(name=lambda *a: a[0].upper())`, the
lambda being the object numbered 9. -/
def upperDecorator : NRFunctionTraceDecoratorObject :=
  (NRFunctionTraceDecorator_init NRFunctionTraceDecorator_new []
    (some [("name", .object 9)])).2

/-- The world after `p = factory(lambda s: s)`, the lambda being the object
numbered 5. -/
def upperWorld : World :=
  match NRFunctionTraceDecorator_call tracedEnv 1 emptyWorld upperDecorator [.object 5] none with
  | some (_, w) => w
  | none => emptyWorld

/-- A world whose proxy at address 0 is bound and has the object numbered 9 as
its scope callable, under the literal name "X". -/
def boundScopeWorld : World := worldWith (boundProxy (.PyString "X") (.object 9))

/-- A world whose proxy at address 0 is bound and has the object numbered 9 as
its name callable, with no scope. -/
def boundNameWorld : World := worldWith (boundProxy (.object 9) .Py_None)

/-- Collaborators under which the function numbered 5 has a `__get__` method,
the object numbered 10, which answers with the bound method numbered 11. -/
def bindingEnv : Env :=
  { tracedEnv with
    currentTransaction := fun _ => none
    getattr := fun _ o name =>
      if o = .object 5 ∧ name = "__get__" then .ok (.object 10)
      else .error (PyErr_SetString .PyExc_TypeError "no attribute")
    call := fun _ callee args _ =>
      if callee = .object 10 then .ok (.object 11) else .ok (args.headD .Py_None) }

/-- A world whose proxy at address 0 wraps the function numbered 5, derives its
name and has no scope. -/
def methodWorld : World := worldWith (plainProxy (.object 5) .Py_None .Py_None)

/-- Collaborators under which the function numbered 5 has a `__get__` method,
the object numbered 10, which answers with the bound method numbered 11 for
the instance numbered 12 and with the bound method numbered 15 for any other
instance. -/
def twoInstanceEnv : Env :=
  { bindingEnv with
    call := fun _ callee args _ =>
      if callee = .object 10 then
        (if args.headD .Py_None = .object 12 then .ok (.object 11) else .ok (.object 15))
      else .ok (args.headD .Py_None) }

/-- The world that binding the proxy at address 0 of `methodWorld` to the
instance numbered 12 leaves behind. -/
def firstBoundWorld : World :=
  match NRFunctionTraceWrapper_descr_get twoInstanceEnv 1 methodWorld 0 (some (.object 12))
      (some (.object 13)) with
  | some (_, w) => w
  | none => methodWorld

/-- Collaborators under which a proxy has the attribute `cached` of its own,
the object numbered 30, and no other attribute outside its accessor table;
the object numbered 5 has every attribute, the attribute being its own name. -/
def lookupEnv : Env :=
  { tracedEnv with
    genericGetAttr := fun _ _ _ name =>
      if name = "cached" then .ok (.object 30)
      else .error (PyErr_SetString .PyExc_TypeError "no attribute")
    getattr := fun _ o name =>
      if o = .object 5 then .ok (.PyString name)
      else .error (PyErr_SetString .PyExc_TypeError "no attribute") }

/-- A running dummy transaction: it has no inner agent transaction. -/
def dummyTransaction : NRTransactionObject :=
  { transaction := none, transaction_state := .NR_TRANSACTION_STATE_RUNNING }

/-- Sample values of the two function type constants. -/
def sampleTypes : FunctionTypes :=
  { NR_FUNCTION_TYPE_PRE_FUNCTION := 1, NR_FUNCTION_TYPE_POST_FUNCTION := 2 }

/-- A class defined in Python, the object numbered 20: it is a type, its own
flags carry `Py_TPFLAGS_HEAPTYPE`, and its type is the builtin `type`, whose
flags do not. -/
def pythonClass : ParentObject :=
  { object := .object 20, isModule := false, isType := true, heapType := true,
    typeOfIsHeapType := false }

/-- Collaborators under which every lookup finds the callable numbered 5 as the
attribute `m` of `pythonClass`, and every attribute write succeeds. -/
def classInstallEnv : InstallEnv :=
  { lookupCallable := fun _ _ _ _ => .ok (.object 5, pythonClass, "m")
    setAttrString := fun _ _ _ _ => .ok () }

/-- A wrapped callable with a pre function: the callable numbered 5 behind the
function numbered 8. -/
def preWrapper (run_once : Int) : NRWrappedCallableObject :=
  { wrapped_object := some (.object 5), function_type := 1,
    function_object := some (.object 8), run_once := run_once }

/-- Collaborators as `tracedEnv`, except that every discard query answers that
the node was discarded. -/
def discardingEnv : Env :=
  { tracedEnv with deleteIfNotSlowEnough := fun _ _ _ _ => true }

/-! ## Theorems -/

/-! ### Attribute reads leave the heap alone -/

theorem Frame.refl (w : World) : Frame w w := ⟨rfl, rfl⟩

theorem Frame.emit (w : World) (e : Event) : Frame w (w.emit e) := ⟨rfl, rfl⟩

theorem Frame.trans {a b c : World} (h1 : Frame a b) (h2 : Frame b c) : Frame a c :=
  ⟨h2.1.trans h1.1, h2.2.trans h1.2⟩

theorem getter_frame (ga : GetAttrFn)
    (hga : ∀ w o n r w', ga w o n = some (r, w') → Frame w w')
    (env : Env) (w : World) (self : Nat) (name : String) (r : Result) (w' : World)
    (h : PyObject_GenericGetAttr env ga w self name = some (r, w')) : Frame w w' := by
  unfold PyObject_GenericGetAttr at h
  split_ifs at h
  all_goals first
    | (simp only [Option.some.injEq, Prod.mk.injEq] at h; obtain ⟨-, rfl⟩ := h
       exact Frame.refl _)
    | (simp only [NRFunctionTraceWrapper_get_module, NRFunctionTraceWrapper_get_name,
         NRFunctionTraceWrapper_get_doc, NRFunctionTraceWrapper_get_dict] at h
       split at h
       · simp only [Option.some.injEq, Prod.mk.injEq] at h; obtain ⟨-, rfl⟩ := h
         exact Frame.refl _
       · first
         | exact hga _ _ _ _ _ h
         | (split at h
            · simp only [Option.some.injEq, Prod.mk.injEq] at h; obtain ⟨-, rfl⟩ := h
              exact Frame.refl _
            · exact hga _ _ _ _ _ h))

theorem getattro_frame (ga : GetAttrFn)
    (hga : ∀ w o n r w', ga w o n = some (r, w') → Frame w w')
    (env : Env) (w : World) (self : Nat) (name : String) (r : Result) (w' : World)
    (h : NRFunctionTraceWrapper_getattro env ga w self name = some (r, w')) : Frame w w' := by
  unfold NRFunctionTraceWrapper_getattro at h
  split at h
  · simp only [Option.some.injEq, Prod.mk.injEq] at h; obtain ⟨-, rfl⟩ := h
    exact Frame.refl _
  · split at h
    · simp at h
    · rename_i heq
      simp only [Option.some.injEq, Prod.mk.injEq] at h; obtain ⟨-, rfl⟩ := h
      exact getter_frame ga hga env _ _ _ _ _ heq
    · rename_i heq
      exact (getter_frame ga hga env _ _ _ _ _ heq).trans (hga _ _ _ _ _ h)

theorem PyObject_GetAttr_frame (env : Env) (fuel : Nat) :
    ∀ w o n r w', PyObject_GetAttr env fuel w o n = some (r, w') → Frame w w' := by
  induction fuel with
  | zero =>
    intro w o n r w' h
    cases o
    case NRFunctionTraceWrapper a => simp [PyObject_GetAttr] at h
    all_goals
      simp [PyObject_GetAttr] at h
      obtain ⟨-, rfl⟩ := h; exact Frame.emit _ _
  | succ k ih =>
    intro w o n r w' h
    cases o
    case NRFunctionTraceWrapper a =>
      simp only [PyObject_GetAttr] at h
      exact getattro_frame _ ih env _ _ _ _ _ h
    all_goals
      simp [PyObject_GetAttr] at h
      obtain ⟨-, rfl⟩ := h; exact Frame.emit _ _

theorem init_last_frame (env : Env) (fuel : Nat) (w : World) (o last : PyObj) (w' : World)
    (h : NRFunctionTraceWrapper_init_last env fuel w o = some (last, w')) : Frame w w' := by
  unfold NRFunctionTraceWrapper_init_last at h
  rcases h1 : PyObject_GetAttr env fuel w o "__newrelic__" with _ | ⟨r1, w1⟩
  · simp [h1] at h
  have f1 := PyObject_GetAttr_frame env fuel _ _ _ _ _ h1
  cases r1 with
  | error e => simp [h1] at h; obtain ⟨-, rfl⟩ := h; exact f1
  | ok v =>
    simp only [h1] at h
    rcases h2 : PyObject_GetAttr env fuel w1 o "__last_object__" with _ | ⟨r2, w2⟩
    · simp [h2] at h
    have f2 := PyObject_GetAttr_frame env fuel _ _ _ _ _ h2
    cases r2 <;> (simp [h2] at h; obtain ⟨-, rfl⟩ := h; exact f1.trans f2)

theorem NRFunctionTraceWrapper_init_fields (env : Env) (fuel : Nat) (w : World) (self : Nat)
    (args : List PyObj) (kwds : Kwds) (w' : World)
    (h : NRFunctionTraceWrapper_init env fuel w self args kwds = some (.ok (), w')) :
    ∃ wrapped last,
      parsedArgument ["wrapped", "name", "scope", "interesting"] args kwds 0 = some wrapped ∧
      (w'.heap self).next_object = some wrapped ∧
      (w'.heap self).last_object = some last ∧
      (w'.heap self).descr_object = none ∧
      (w'.heap self).self_object = none ∧
      (w'.heap self).name = some ((parsedArgument ["wrapped", "name", "scope", "interesting"]
        args kwds 1).getD .Py_None) ∧
      (w'.heap self).scope = some ((parsedArgument ["wrapped", "name", "scope", "interesting"]
        args kwds 2).getD .Py_None) ∧
      (w'.heap self).interesting = (if (parsedArgument ["wrapped", "name", "scope",
        "interesting"] args kwds 3).getD .Py_True = .Py_True then 1 else 0) ∧
      w'.next = w.next ∧ (∀ a, a ≠ self → w'.heap a = w.heap a) ∧
      ∃ w1 w2, NRFunctionTraceWrapper_init_last env fuel w1 wrapped = some (last, w2) ∧
        w1.log = w.log ∧ (w1.heap self).last_object = none ∧
        ∀ a, a ≠ self → w1.heap a = w.heap a := by
  unfold NRFunctionTraceWrapper_init at h
  simp only [] at h
  by_cases hk : keywordsAccepted ["wrapped", "name", "scope", "interesting"] args kwds
  swap
  · simp [hk] at h
  rcases h0 : parsedArgument ["wrapped", "name", "scope", "interesting"] args kwds 0 with _ | wrapped
  · simp [hk, h0] at h
  by_cases hb : PyBool_Check ((parsedArgument ["wrapped", "name", "scope",
        "interesting"] args kwds 3).getD .Py_True)
  swap
  · simp [hk, h0, hb] at h
  simp only [hk, h0, hb, Bool.not_true, Bool.false_eq_true, if_false] at h
  rcases hl : NRFunctionTraceWrapper_init_last env fuel (w.store self { (w.heap self) with
          descr_object := none, self_object := none,
          next_object := some wrapped, last_object := none, dict := none }) wrapped with _ | ⟨last, w2⟩
  · simp [hl] at h
  have f2 := init_last_frame _ _ _ _ _ _ hl
  simp only [hl] at h
  rcases hd : PyObject_GetAttr env fuel (w2.store self { (w2.heap self) with last_object := some last }) last "__dict__" with _ | ⟨d, w4⟩
  · simp [hd] at h
  have f4 := PyObject_GetAttr_frame env fuel _ _ _ _ _ hd
  simp only [hd] at h
  have hw1 : ∃ w1 w2, NRFunctionTraceWrapper_init_last env fuel w1 wrapped = some (last, w2) ∧
        w1.log = w.log ∧ (w1.heap self).last_object = none ∧
        ∀ a, a ≠ self → w1.heap a = w.heap a :=
    ⟨_, _, hl, rfl, by simp [World.store], by intro a ha; simp [World.store, ha]⟩
  refine ⟨wrapped, last, rfl, ?_⟩
  cases d <;>
  · simp only [Option.some.injEq, Prod.mk.injEq, true_and] at h
    subst h
    simp only [World.store, f4.1, f4.2, f2.1, f2.2, if_true, true_and]
    refine ⟨?_, hw1⟩
    intro a ha
    simp [ha]

/-! ### Creating a trace handle, and the traced call -/

theorem keywordsAccepted_four (a b c d : PyObj) (k1 k2 k3 k4 : String) :
    keywordsAccepted [k1, k2, k3, k4] [a, b, c, d] none = true := by
  simp [keywordsAccepted]

theorem NRFunctionTrace_Type_call_error (env : Env) (w w1 : World) (t : NRTransactionObject)
    (name scope flag : PyObj) (e : PyErr)
    (h : NRFunctionTrace_Type_call env w [.NRTransaction t, name, scope, flag] none =
      (.error e, w1)) :
    w1 = w.emit (.FunctionTrace_call [.NRTransaction t, name, scope, flag] none) := by
  unfold NRFunctionTrace_Type_call NRFunctionTrace_init at h
  simp only [keywordsAccepted_four, parsedArgument, List.get?, Option.getD_some, Bool.not_true,
    Bool.false_eq_true, if_false] at h
  rcases ht : t.transaction with _ | inner <;> simp only [ht] at h <;> split_ifs at h
  all_goals first
    | (simp only [Prod.mk.injEq] at h; exact h.2.symm)
    | (simp at h)

theorem NRFunctionTrace_Type_call_ok (env : Env) (w w1 : World) (t : NRTransactionObject)
    (name scope flag : PyObj) (handle : NRFunctionTraceObject)
    (h : NRFunctionTrace_Type_call env w [.NRTransaction t, name, scope, flag] none =
      (.ok handle, w1)) :
    handle.parent_transaction = some t ∧ handle.saved_trace_node = none ∧
    w1.heap = w.heap ∧ w1.next = w.next ∧
    ∃ evs, w1.log = w.log ++ [Event.FunctionTrace_call [.NRTransaction t, name, scope, flag]
      none] ++ evs ∧ evs.filter Event.isInvocation = [] := by
  unfold NRFunctionTrace_Type_call NRFunctionTrace_init at h
  simp only [keywordsAccepted_four, parsedArgument, List.get?, Option.getD_some, Bool.not_true,
    Bool.false_eq_true, if_false] at h
  rcases ht : t.transaction with _ | inner <;> simp only [ht] at h <;> split_ifs at h
  all_goals first
    | (simp at h; done)
    | (simp only [Prod.mk.injEq, Except.ok.injEq] at h
       obtain ⟨rfl, rfl⟩ := h
       first
       | exact ⟨rfl, rfl, rfl, rfl, [_], rfl, rfl⟩
       | exact ⟨rfl, rfl, rfl, rfl, [], by simp [World.emit], rfl⟩)

theorem wrapped_call_eq (env : Env) (w : World) (self : Nat) (args : List PyObj) (kwds : Kwds)
    (target : PyObj) (h : wrappedTarget (w.heap self) = some target) :
    NRFunctionTraceWrapper_call_wrapped env w self args kwds =
      some (env.call w.log target args kwds, w.emit (.Call target args kwds)) := by
  unfold wrappedTarget at h
  unfold NRFunctionTraceWrapper_call_wrapped
  cases hd : (w.heap self).descr_object with
  | none => simp only [hd] at h; simp [h, PyObject_Call]
  | some d => simp only [hd, Option.some.injEq] at h; simp [h, PyObject_Call]

theorem call_traced_created (env : Env) (w w1 : World) (self : Nat) (t : NRTransactionObject)
    (name scope : PyObj) (args : List PyObj) (kwds : Kwds) (handle : NRFunctionTraceObject)
    (target : PyObj)
    (hcreate : NRFunctionTrace_Type_call env w
      [.NRTransaction t, name, scope, interestingFlag (w.heap self)] none = (.ok handle, w1))
    (htarget : wrappedTarget (w.heap self) = some target) :
    ∃ pre post w',
      NRFunctionTraceWrapper_call_traced env w self t name scope args kwds =
        some (env.call (w1.log ++ pre) target args kwds, w') ∧
      w'.log = w1.log ++ pre ++ [Event.Call target args kwds,
        Event.FunctionTrace_exit (exitPayload (env.call (w1.log ++ pre) target args kwds))]
        ++ post ∧
      pre.filter Event.isInvocation = [Event.FunctionTrace_enter] ∧
      post.filter Event.isInvocation = [] ∧
      pre.filter Event.isTraceTree = (handle.transaction_trace.map
        Event.record_starttime_and_push_current).toList ∧
      w'.heap = w.heap ∧ w'.next = w.next := by
  obtain ⟨hparent, -, hheap, hnext, -⟩ := NRFunctionTrace_Type_call_ok _ _ _ _ _ _ _ _ hcreate
  have htarget1 : ∀ l, wrappedTarget (({ heap := w1.heap, next := w1.next, log := l } : World).heap
      self) = some target := by intro l; simpa [hheap] using htarget
  unfold interestingFlag at hcreate
  unfold NRFunctionTraceWrapper_call_traced
  simp only [hcreate, NRFunctionTrace_enter, World.emit, reportUnraisable]
  rcases hn : handle.transaction_trace with _ | node
  · simp only [wrapped_call_eq _ _ _ _ _ _ (htarget1 _), NRFunctionTrace_exit, hn, World.emit,
      reportUnraisable, PyErr_Fetch, PyErr_Restore]
    refine ⟨[Event.FunctionTrace_enter], [], ?_⟩
    rcases hr : env.call (w1.log ++ [Event.FunctionTrace_enter]) target args kwds with e | v
    all_goals
      refine ⟨_, rfl, ?_, rfl, rfl, rfl, hheap, hnext⟩
      simp [exitPayload]
  · simp only [nr_node_header__record_starttime_and_push_current, World.emit,
      wrapped_call_eq _ _ _ _ _ _ (htarget1 _), NRFunctionTrace_exit, hn, hparent,
      reportUnraisable, PyErr_Fetch, PyErr_Restore,
      nr_node_header__record_stoptime_and_pop_current,
      nr_node_header__delete_if_not_slow_enough, nr_web_transaction__convert_from_stack_based]
    refine ⟨[Event.FunctionTrace_enter, Event.record_starttime_and_push_current node], ?_⟩
    simp only [List.append_assoc, List.singleton_append]
    rcases hr : env.call (w1.log ++ [Event.FunctionTrace_enter,
      Event.record_starttime_and_push_current node]) target args kwds with e | v
    all_goals
      simp only []
      split_ifs
      · refine ⟨[Event.record_stoptime_and_pop_current node
            (env.pushCurrent (w1.log ++ [Event.FunctionTrace_enter]) node),
          Event.delete_if_not_slow_enough node handle.interesting t.transaction,
          Event.convert_from_stack_based node t.transaction],
          _, rfl, ?_, rfl, rfl, rfl, hheap, hnext⟩
        simp [exitPayload]
      · refine ⟨[Event.record_stoptime_and_pop_current node
            (env.pushCurrent (w1.log ++ [Event.FunctionTrace_enter]) node),
          Event.delete_if_not_slow_enough node handle.interesting t.transaction],
          _, rfl, ?_, rfl, rfl, rfl, hheap, hnext⟩
        simp [exitPayload]

theorem NRFunctionTraceWrapper_Type_call_fields (env : Env) (fuel : Nat) (w w' : World)
    (args : List PyObj) (kwds : Kwds) (proxy : Nat)
    (h : NRFunctionTraceWrapper_Type_call env fuel w args kwds =
      some (.ok (.NRFunctionTraceWrapper proxy), w')) :
    proxy = w.next ∧ w'.next = w.next + 1 ∧ (∀ a, a ≠ proxy → w'.heap a = w.heap a) ∧
    ∃ wrapped last,
      (∃ w1 w2, NRFunctionTraceWrapper_init_last env fuel w1 wrapped = some (last, w2) ∧
        w1.log = w.log ∧ (w1.heap proxy).last_object = none ∧
        ∀ a, a ≠ proxy → w1.heap a = w.heap a) ∧
      parsedArgument ["wrapped", "name", "scope", "interesting"] args kwds 0 = some wrapped ∧
      (w'.heap proxy).next_object = some wrapped ∧
      (w'.heap proxy).last_object = some last ∧
      (w'.heap proxy).descr_object = none ∧
      (w'.heap proxy).self_object = none ∧
      (w'.heap proxy).name = some ((parsedArgument ["wrapped", "name", "scope", "interesting"]
        args kwds 1).getD .Py_None) ∧
      (w'.heap proxy).scope = some ((parsedArgument ["wrapped", "name", "scope", "interesting"]
        args kwds 2).getD .Py_None) ∧
      (w'.heap proxy).interesting = (if (parsedArgument ["wrapped", "name", "scope",
        "interesting"] args kwds 3).getD .Py_True = .Py_True then 1 else 0) := by
  unfold NRFunctionTraceWrapper_Type_call at h
  simp only [NRFunctionTraceWrapper_new, tp_alloc] at h
  split at h
  · simp at h
  · rename_i w2 hi
    simp only [Option.some.injEq, Prod.mk.injEq, Except.ok.injEq,
      PyObj.NRFunctionTraceWrapper.injEq] at h
    obtain ⟨rfl, rfl⟩ := h
    obtain ⟨wrapped, last, h0, h1, h2, h3, h4, h5, h6, h7, h8, h9, w1, w2, k1, k2, k3, k4⟩ :=
      NRFunctionTraceWrapper_init_fields _ _ _ _ _ _ _ hi
    refine ⟨rfl, ?_, ?_, wrapped, last, ⟨w1, w2, k1, k2, k3, ?_⟩, h0, h1, h2, h3, h4, h5, h6,
      h7⟩
    · simpa [World.store] using h8
    · intro a ha
      rw [h9 a ha]
      simp [World.store, ha]
    · intro a ha
      rw [k4 a ha]
      simp [World.store, ha]
  · simp at h

theorem call_name_frame (env : Env) (w w1 : World) (self : Nat) (args : List PyObj) (kwds : Kwds)
    (r : Result) (h : NRFunctionTraceWrapper_call_name env w self args kwds = some (r, w1)) :
    Frame w w1 := by
  unfold NRFunctionTraceWrapper_call_name at h
  simp only [NRUtilities_CallableName, PyObject_Call] at h
  split at h
  · simp at h
  · split_ifs at h
    · simp only [Option.some.injEq, Prod.mk.injEq] at h; obtain ⟨-, rfl⟩ := h; exact Frame.emit _ _
    · simp only [Option.some.injEq, Prod.mk.injEq] at h; obtain ⟨-, rfl⟩ := h; exact Frame.refl _
    · split at h
      · split at h
        · simp at h
        · simp only [Option.some.injEq, Prod.mk.injEq] at h; obtain ⟨-, rfl⟩ := h
          exact Frame.emit _ _
      · simp only [Option.some.injEq, Prod.mk.injEq] at h; obtain ⟨-, rfl⟩ := h
        exact Frame.emit _ _

theorem call_scope_frame (env : Env) (w w1 : World) (self : Nat) (args : List PyObj)
    (kwds : Kwds) (r : Result)
    (h : NRFunctionTraceWrapper_call_scope env w self args kwds = some (r, w1)) :
    Frame w w1 := by
  unfold NRFunctionTraceWrapper_call_scope at h
  simp only [PyObject_Call] at h
  split at h
  · simp at h
  · split_ifs at h
    · simp only [Option.some.injEq, Prod.mk.injEq] at h; obtain ⟨-, rfl⟩ := h; exact Frame.refl _
    · simp only [Option.some.injEq, Prod.mk.injEq] at h; obtain ⟨-, rfl⟩ := h; exact Frame.refl _
    · simp only [Option.some.injEq, Prod.mk.injEq] at h; obtain ⟨-, rfl⟩ := h; exact Frame.emit _ _

theorem call_resolved (env : Env) (w w1 w2 : World) (self : Nat) (args : List PyObj)
    (kwds : Kwds) (t : NRTransactionObject) (name scope : PyObj)
    (hcurrent : NRTransaction_CurrentTransaction env w = some t)
    (hname : NRFunctionTraceWrapper_call_name env w self args kwds = some (.ok name, w1))
    (hscope : NRFunctionTraceWrapper_call_scope env w1 self args kwds = some (.ok scope, w2)) :
    NRFunctionTraceWrapper_call env w self args kwds =
      NRFunctionTraceWrapper_call_traced env w2 self t name scope args kwds := by
  unfold NRFunctionTraceWrapper_call
  simp only [hcurrent, hname, hscope]


theorem NRFunctionTrace_Type_call_real (env : Env) (w : World) (t : NRTransactionObject)
    (inner : TxnRef) (name scope flag : PyObj)
    (hname : (PyString_Check name || PyUnicode_Check name) = true)
    (hscope : (PyString_Check scope || PyUnicode_Check scope || decide (scope = .Py_None)) = true)
    (hflag : PyBool_Check flag = true)
    (hrun : t.transaction_state = .NR_TRANSACTION_STATE_RUNNING)
    (hreal : t.transaction = some inner) :
    NRFunctionTrace_Type_call env w [.NRTransaction t, name, scope, flag] none =
      (.ok { parent_transaction := some t,
             transaction_trace := some (env.allocateFunctionNode
               (w.log ++ [Event.FunctionTrace_call [.NRTransaction t, name, scope, flag] none])
               inner (PyString_AsString name) none
               (if scope = .Py_None then "Function" else PyString_AsString scope)),
             saved_trace_node := none,
             interesting := if flag = .Py_True then 1 else 0 },
       { heap := w.heap, next := w.next,
         log := w.log ++ [Event.FunctionTrace_call [.NRTransaction t, name, scope, flag] none,
           Event.allocate_function_node inner (PyString_AsString name) none
             (if scope = .Py_None then "Function" else PyString_AsString scope)] }) := by
  have h1 : (!PyString_Check name && !PyUnicode_Check name) = false := by
    revert hname; cases PyString_Check name <;> cases PyUnicode_Check name <;> simp
  have h2 : (!PyString_Check scope && !PyUnicode_Check scope && (scope != .Py_None)) = false := by
    revert hscope
    cases PyString_Check scope <;> cases PyUnicode_Check scope <;> simp [bne]
  simp [NRFunctionTrace_Type_call, NRFunctionTrace_init, keywordsAccepted_four, parsedArgument,
    hflag, h1, h2, NRFunctionTrace_new, hrun, hreal,
    nr_web_transaction__allocate_function_node, World.emit]


theorem exit_backed (env : Env) (w : World) (handle : NRFunctionTraceObject)
    (args : List PyObj) (node : NodeRef) (t : NRTransactionObject)
    (hnode : handle.transaction_trace = some node)
    (hparent : handle.parent_transaction = some t) :
    NRFunctionTrace_exit env w handle args =
      some (.ok .Py_None, { handle with saved_trace_node := none },
        { heap := w.heap, next := w.next,
          log := w.log ++
            [Event.FunctionTrace_exit args,
             Event.record_stoptime_and_pop_current node handle.saved_trace_node,
             Event.delete_if_not_slow_enough node handle.interesting t.transaction] ++
            (if env.deleteIfNotSlowEnough
                (w.log ++ [Event.FunctionTrace_exit args,
                  Event.record_stoptime_and_pop_current node handle.saved_trace_node])
                node handle.interesting t.transaction = true
             then []
             else [Event.convert_from_stack_based node t.transaction]) }) := by
  obtain ⟨p, tr, sv, i⟩ := handle
  simp only at hnode hparent
  subst hnode hparent
  simp only [NRFunctionTrace_exit, World.emit,
    nr_node_header__record_stoptime_and_pop_current, nr_node_header__delete_if_not_slow_enough,
    nr_web_transaction__convert_from_stack_based, List.append_assoc, List.singleton_append,
    List.cons_append, List.nil_append]
  split_ifs <;> simp_all

/-! ### Attribute reads through a proxy -/

theorem PyObject_GetAttr_plain (env : Env) (fuel : Nat) (w : World) (o : PyObj)
    (name : String) (ho : notProxy o) :
    PyObject_GetAttr env fuel w o name =
      some (env.getattr w.log o name, w.emit (.GetAttr o name)) := by
  cases o
  case NRFunctionTraceWrapper a => exact absurd rfl (ho a)
  all_goals cases fuel <;> rfl

theorem PyObject_GetAttr_marker (env : Env) (fuel : Nat) (w : World) (b : Nat) (l : PyObj)
    (hl : (w.heap b).last_object = some l) :
    PyObject_GetAttr env (fuel + 1) w (.NRFunctionTraceWrapper b) "__newrelic__" =
      some (.ok .Py_None, w) := by
  simp +decide [PyObject_GetAttr, NRFunctionTraceWrapper_getattro, hl, PyObject_GenericGetAttr,
    NRFunctionTraceWrapper_get_marker]

theorem PyObject_GetAttr_last (env : Env) (fuel : Nat) (w : World) (b : Nat) (l : PyObj)
    (hl : (w.heap b).last_object = some l) :
    PyObject_GetAttr env (fuel + 1) w (.NRFunctionTraceWrapper b) "__last_object__" =
      some (.ok l, w) := by
  simp +decide [PyObject_GetAttr, NRFunctionTraceWrapper_getattro, hl, PyObject_GenericGetAttr,
    NRFunctionTraceWrapper_get_last]

theorem PyObject_GetAttr_uninitialised (env : Env) (fuel : Nat) (w : World) (b : Nat)
    (name : String) (hl : (w.heap b).last_object = none) :
    PyObject_GetAttr env (fuel + 1) w (.NRFunctionTraceWrapper b) name =
      some (.error notInitialised, w) := by
  simp [PyObject_GetAttr, NRFunctionTraceWrapper_getattro, hl]

theorem PyObject_GetAttr_identity (env : Env) (fuel : Nat) (w : World) (b : Nat) (f : PyObj)
    (name : String) (hl : (w.heap b).last_object = some f) (hf : notProxy f)
    (hname : name = "__doc__" ∨ name = "__name__" ∨ name = "__module__") :
    PyObject_GetAttr env (fuel + 1) w (.NRFunctionTraceWrapper b) name =
      some (readTwice env w f name) := by
  have hread : ∀ w0 : World, PyObject_GetAttr env fuel w0 f name =
      some (env.getattr w0.log f name, w0.emit (.GetAttr f name)) :=
    fun w0 => PyObject_GetAttr_plain env fuel w0 f name hf
  rcases hname with rfl | rfl | rfl
  all_goals
    simp +decide only [PyObject_GetAttr, NRFunctionTraceWrapper_getattro, hl,
      PyObject_GenericGetAttr, NRFunctionTraceWrapper_get_doc, NRFunctionTraceWrapper_get_name,
      NRFunctionTraceWrapper_get_module, if_true, if_false, hread, readTwice]
    rcases env.getattr w.log f _ with e | v <;> rfl

theorem init_last_zero (env : Env) (w : World) (b : Nat) :
    NRFunctionTraceWrapper_init_last env 0 w (.NRFunctionTraceWrapper b) = none := by
  simp [NRFunctionTraceWrapper_init_last, PyObject_GetAttr]

theorem init_last_proxy (env : Env) (fuel : Nat) (w : World) (b : Nat) (l : PyObj)
    (hl : (w.heap b).last_object = some l) :
    NRFunctionTraceWrapper_init_last env (fuel + 1) w (.NRFunctionTraceWrapper b) =
      some (l, w) := by
  simp only [NRFunctionTraceWrapper_init_last, PyObject_GetAttr_marker env fuel w b l hl,
    PyObject_GetAttr_last env fuel w b l hl]

theorem init_last_uninitialised (env : Env) (fuel : Nat) (w : World) (b : Nat)
    (hl : (w.heap b).last_object = none) :
    NRFunctionTraceWrapper_init_last env (fuel + 1) w (.NRFunctionTraceWrapper b) =
      some (.NRFunctionTraceWrapper b, w) := by
  simp only [NRFunctionTraceWrapper_init_last,
    PyObject_GetAttr_uninitialised env fuel w b _ hl]

theorem init_last_plain (env : Env) (fuel : Nat) (w : World) (t : PyObj) (ht : notProxy t) :
    ∃ w2, NRFunctionTraceWrapper_init_last env fuel w t =
      some ((match env.getattr w.log t "__newrelic__" with
        | .error _ => t
        | .ok _ =>
          match env.getattr (w.log ++ [.GetAttr t "__newrelic__"]) t "__last_object__" with
          | .ok l => l
          | .error _ => t), w2) := by
  simp only [NRFunctionTraceWrapper_init_last, PyObject_GetAttr_plain env fuel _ t _ ht,
    World.emit]
  rcases env.getattr w.log t "__newrelic__" with e | m
  · exact ⟨_, rfl⟩
  · simp only []
    rcases env.getattr (w.log ++ [Event.GetAttr t "__newrelic__"]) t "__last_object__" with e | l
    · exact ⟨_, rfl⟩
    · exact ⟨_, rfl⟩

theorem wrap_returns (env : Env) (fuel : Nat) (w : World) (t last : PyObj)
    (hlast : ∀ w1 : World, w1.log = w.log → (∀ b, b ≠ w.next → w1.heap b = w.heap b) →
      ∃ w2, NRFunctionTraceWrapper_init_last env fuel w1 t = some (last, w2))
    (hplain : notProxy last) :
    ∃ w', NRFunctionTraceWrapper_Type_call env fuel w [t] none =
        some (.ok (.NRFunctionTraceWrapper w.next), w') ∧
      (w'.heap w.next).last_object = some last ∧ w'.next = w.next + 1 ∧
      ∀ b, b ≠ w.next → w'.heap b = w.heap b := by
  obtain ⟨w2, h2⟩ := hlast
    (((NRFunctionTraceWrapper_new w).2).store w.next
      { ((NRFunctionTraceWrapper_new w).2.heap w.next) with
        descr_object := none, self_object := none, next_object := some t,
        last_object := none, dict := none }) rfl
    (by intro b hb; simp [World.store, NRFunctionTraceWrapper_new, tp_alloc, hb])
  have f2 := init_last_frame _ _ _ _ _ _ h2
  have hk : keywordsAccepted ["wrapped", "name", "scope", "interesting"] [t] none = true := by
    simp [keywordsAccepted]
  unfold NRFunctionTraceWrapper_Type_call NRFunctionTraceWrapper_init
  simp only [hk, parsedArgument, List.get?, Bool.not_true, Bool.false_eq_true, if_false]
  have hself : (NRFunctionTraceWrapper_new w).1 = w.next := rfl
  simp +decide only [hself, List.lookup, Option.getD, Option.bind, PyBool_Check, h2,
    Option.getD_none, Bool.not_true, Bool.false_eq_true, if_false,
    PyObject_GetAttr_plain env fuel _ last _ hplain]
  rcases env.getattr (w2.store w.next _).log last "__dict__" with e | d
  all_goals
    refine ⟨_, rfl, ?_, ?_, ?_⟩
    · simp [World.store, World.emit]
    · simp [World.store, World.emit, f2.2, NRFunctionTraceWrapper_new, tp_alloc]
    · intro b hb
      simp [World.store, World.emit, f2.1, NRFunctionTraceWrapper_new, tp_alloc, hb]

theorem wrapTimes_flat (env : Env) (fuel : Nat) (f : PyObj) (hf : notProxy f)
    (hmarker : ∀ log, ∃ e, env.getattr log f "__newrelic__" = .error e) (hfuel : 1 ≤ fuel)
    (n : Nat) (w : World) :
    ∃ a w', wrapTimes env fuel (n + 1) w f = some (.NRFunctionTraceWrapper a, w') ∧
      a < w'.next ∧ (w'.heap a).last_object = some f := by
  induction n with
  | zero =>
    obtain ⟨w', h1, h2, h3, -⟩ := wrap_returns env fuel w f f
      (by
        intro w1 _ _
        obtain ⟨w2, h⟩ := init_last_plain env fuel w1 f hf
        obtain ⟨e, he⟩ := hmarker w1.log
        rw [he] at h
        exact ⟨w2, h⟩) hf
    refine ⟨w.next, w', ?_, by omega, h2⟩
    simp [wrapTimes, h1]
  | succ k ih =>
    obtain ⟨a, w1, h1, ha, hl⟩ := ih
    obtain ⟨fuel', rfl⟩ : ∃ k, fuel = k + 1 := ⟨fuel - 1, by omega⟩
    obtain ⟨w', k1, k2, k3, -⟩ := wrap_returns env (fuel' + 1) w1 (.NRFunctionTraceWrapper a) f
      (by
        intro w2 _ hheap
        have : (w2.heap a).last_object = some f := by
          rw [hheap a (by omega)]; exact hl
        exact ⟨w2, init_last_proxy env fuel' w2 a f this⟩) hf
    refine ⟨w1.next, w', ?_, by omega, k2⟩
    rw [wrapTimes, h1]
    simp [k1]

theorem call_traced_begins (env : Env) (w : World) (self : Nat) (t : NRTransactionObject)
    (name scope : PyObj) (args : List PyObj) (kwds : Kwds) (target : PyObj)
    (htarget : wrappedTarget (w.heap self) = some target) :
    ∃ r w' rest, NRFunctionTraceWrapper_call_traced env w self t name scope args kwds =
        some (r, w') ∧
      w'.log = w.log ++ Event.FunctionTrace_call
        [.NRTransaction t, name, scope, interestingFlag (w.heap self)] none :: rest := by
  rcases hc : NRFunctionTrace_Type_call env w
      [.NRTransaction t, name, scope, interestingFlag (w.heap self)] none with ⟨r, w1⟩
  cases r with
  | error e =>
    have hw1 := NRFunctionTrace_Type_call_error _ _ _ _ _ _ _ _ hc
    refine ⟨.error e, w1, [], ?_, ?_⟩
    · unfold NRFunctionTraceWrapper_call_traced
      unfold interestingFlag at hc
      rw [hc]
    · rw [hw1]; rfl
  | ok handle =>
    obtain ⟨-, -, -, -, evs, hlog, -⟩ := NRFunctionTrace_Type_call_ok _ _ _ _ _ _ _ _ hc
    obtain ⟨pre, post, w', h1, h2, -⟩ :=
      call_traced_created env w w1 self t name scope args kwds handle target hc htarget
    refine ⟨_, w', evs ++ pre ++ [Event.Call target args kwds, Event.FunctionTrace_exit
      (exitPayload (env.call (w1.log ++ pre) target args kwds))] ++ post, h1, ?_⟩
    rw [h2, hlog]
    simp

/-! ### Descriptor binding -/

theorem descr_get_bound (env : Env) (fuel : Nat) (w w1 : World) (self : Nat)
    (o T next_object method descr : PyObj)
    (hself : self < w.next)
    (hnext : (w.heap self).next_object = some next_object)
    (ho : o ≠ .Py_None)
    (hget : PyObject_GetAttr env fuel w next_object "__get__" = some (.ok method, w1))
    (hbind : env.call w1.log method [o, T] none = .ok descr) :
    ∃ w', NRFunctionTraceWrapper_descr_get env fuel w self (some o) (some T) =
        some (.ok (.NRFunctionTraceWrapper w.next), w') ∧
      w'.next = w.next + 1 ∧
      (∀ a, a ≠ w.next → w'.heap a = w.heap a) ∧
      w'.heap w.next =
        { dict := (w.heap self).dict, descr_object := some descr, self_object := some o,
          next_object := (w.heap self).next_object, last_object := (w.heap self).last_object,
          name := (w.heap self).name, scope := (w.heap self).scope,
          interesting := (w.heap self).interesting } ∧
      w'.log = w1.log ++ [Event.Call method [o, T] none] := by
  have f1 := PyObject_GetAttr_frame env fuel _ _ _ _ _ hget
  have hne' : self ≠ w.next := by omega
  have ho' : (some o = some PyObj.Py_None) = False := by simp [ho]
  unfold NRFunctionTraceWrapper_descr_get
  simp only [ho', if_false, hnext, hget, PyObject_Call, objArgs, hbind, tp_alloc, World.emit,
    World.store, f1.2]
  refine ⟨_, rfl, rfl, ?_, ?_, rfl⟩
  · intro a ha
    simp [ha, f1.1]
  · simp [f1.1, hne', Except.toOption, hnext]

theorem descr_get_keeps (env : Env) (fuel : Nat) (w w' : World) (self : Nat)
    (object type : Option PyObj) (r : Result)
    (h : NRFunctionTraceWrapper_descr_get env fuel w self object type = some (r, w')) :
    ∀ a, a < w.next → w'.heap a = w.heap a := by
  unfold NRFunctionTraceWrapper_descr_get at h
  split_ifs at h with hnone
  · simp only [Option.some.injEq, Prod.mk.injEq] at h
    obtain ⟨-, rfl⟩ := h
    intro a _; rfl
  · rcases hn : (w.heap self).next_object with _ | nx
    · simp [hn] at h
    simp only [hn] at h
    rcases hg : PyObject_GetAttr env fuel w nx "__get__" with _ | ⟨m, w1⟩
    · simp [hg] at h
    have f1 := PyObject_GetAttr_frame env fuel _ _ _ _ _ hg
    simp only [hg] at h
    cases m with
    | error e =>
      simp only [Option.some.injEq, Prod.mk.injEq] at h
      obtain ⟨-, rfl⟩ := h
      intro a _; rw [f1.1]
    | ok method =>
      simp only [PyObject_Call, tp_alloc] at h
      rcases hd : env.call w1.log method (objArgs [object, type]) none with e | d
      · simp [hd] at h
      · simp only [hd, Option.some.injEq, Prod.mk.injEq] at h
        obtain ⟨-, rfl⟩ := h
        intro a ha
        have hne : a ≠ w1.next := by rw [f1.2]; omega
        simp [World.store, World.emit, hne, f1.1]

/-! ### Attribute writes -/

theorem PyObject_SetAttr_plain (env : Env) (fuel : Nat) (w : World) (o : PyObj)
    (name : String) (value : Option PyObj) (ho : notProxy o) :
    PyObject_SetAttr env fuel w o name value =
      some (env.setattr w.log o name value, w.emit (.SetAttr o name value)) := by
  cases o
  case NRFunctionTraceWrapper a => exact absurd rfl (ho a)
  all_goals cases fuel <;> rfl

theorem PyObject_SetAttr_frame (env : Env) (fuel : Nat) :
    ∀ w o n v r w', PyObject_SetAttr env fuel w o n v = some (r, w') → Frame w w' := by
  induction fuel with
  | zero =>
    intro w o n v r w' h
    cases o
    case NRFunctionTraceWrapper a => simp [PyObject_SetAttr] at h
    all_goals
      simp [PyObject_SetAttr] at h
      obtain ⟨-, rfl⟩ := h; exact Frame.emit _ _
  | succ k ih =>
    intro w o n v r w' h
    cases o
    case NRFunctionTraceWrapper a =>
      simp only [PyObject_SetAttr, NRFunctionTraceWrapper_setattro] at h
      split at h
      · simp only [Option.some.injEq, Prod.mk.injEq] at h
        obtain ⟨-, rfl⟩ := h; exact Frame.refl _
      · exact ih _ _ _ _ _ _ h
    all_goals
      simp [PyObject_SetAttr] at h
      obtain ⟨-, rfl⟩ := h; exact Frame.emit _ _

/-! ### The claims -/

/-- C1: with no current transaction, `NRFunctionTraceWrapper_call` invokes the
bound-method target `descr_object` when the proxy is descriptor-bound and
`next_object` otherwise, exactly once and with the original arguments, and
returns the result or error of that call unchanged; the call is the only event,
so that no name or scope callable runs and no trace handle is created, entered
or exited. -/
theorem C1_no_transaction_passthrough (env : Env) (w : World) (self : Nat)
    (args : List PyObj) (kwds : Kwds) (target : PyObj)
    (hcurrent : NRTransaction_CurrentTransaction env w = none)
    (htarget : (w.heap self).descr_object = some target ∨
      ((w.heap self).descr_object = none ∧ (w.heap self).next_object = some target)) :
    NRFunctionTraceWrapper_call env w self args kwds =
      some (env.call w.log target args kwds,
        { heap := w.heap, next := w.next, log := w.log ++ [Event.Call target args kwds] }) := by
  unfold NRFunctionTraceWrapper_call
  rw [hcurrent]
  rcases htarget with h | ⟨h1, h2⟩
  · simp [NRFunctionTraceWrapper_call_wrapped, h, PyObject_Call, World.emit]
  · simp [NRFunctionTraceWrapper_call_wrapped, h1, h2, PyObject_Call, World.emit]

/-- C1 at a closed instance: an unbound proxy of object 5, called with one
argument while no transaction is current. -/
theorem C1_no_transaction_passthrough_witness :
    NRTransaction_CurrentTransaction idleEnv (worldWith (plainProxy (.object 5) .Py_None .Py_None)) = none ∧
    NRFunctionTraceWrapper_call idleEnv (worldWith (plainProxy (.object 5) .Py_None .Py_None)) 0
        [.PyString "abc"] none =
      some (.ok (.object 1),
        { heap := (worldWith (plainProxy (.object 5) .Py_None .Py_None)).heap, next := 1,
          log := [Event.Call (.object 5) [.PyString "abc"] none] }) :=
  ⟨rfl, C1_no_transaction_passthrough idleEnv (worldWith (plainProxy (.object 5) .Py_None .Py_None)) 0
    [.PyString "abc"] none (.object 5) rfl (Or.inr ⟨rfl, rfl⟩)⟩

/-- C2: a proxy made by `wrap(f, name="X")`, with no scope given, is called
while the current transaction is running and real.  The call returns, and the
events it adds to the log are, in this order: the creation of one trace
handle, one allocation of a function node named "X" with scope "Function",
one `__enter__`, one record-start-and-push on that node, one call of `f` with
the original arguments, one `__exit__`, one record-stop-and-pop on that node,
the discard query and, when the node is kept, its conversion.  The sequence
does not depend on whether `f` returns or raises. -/
theorem C2_named_trace_sequence (env : Env) (fuel : Nat) (w0 w1 w : World)
    (f nameX : PyObj) (X : String) (proxy : Nat) (t : NRTransactionObject) (inner : TxnRef)
    (args : List PyObj) (kwds : Kwds)
    (hname : nameX = .PyString X ∨ nameX = .PyUnicode X)
    (hwrap : NRFunctionTraceWrapper_Type_call env fuel w0 [f] (some [("name", nameX)]) =
      some (.ok (.NRFunctionTraceWrapper proxy), w1))
    (hsame : w.heap proxy = w1.heap proxy)
    (hcurrent : NRTransaction_CurrentTransaction env w = some t)
    (hrunning : t.transaction_state = .NR_TRANSACTION_STATE_RUNNING)
    (hreal : t.transaction = some inner) :
    ∃ node saved result payload converted w',
      node = env.allocateFunctionNode (w.log ++ [Event.FunctionTrace_call
        [.NRTransaction t, nameX, .Py_None, .Py_True] none]) inner X none "Function" ∧
      NRFunctionTraceWrapper_call env w proxy args kwds = some (result, w') ∧
      w'.log = w.log ++
        [Event.FunctionTrace_call [.NRTransaction t, nameX, .Py_None, .Py_True] none,
         Event.allocate_function_node inner X none "Function",
         Event.FunctionTrace_enter,
         Event.record_starttime_and_push_current node,
         Event.Call f args kwds,
         Event.FunctionTrace_exit payload,
         Event.record_stoptime_and_pop_current node saved,
         Event.delete_if_not_slow_enough node 1 (some inner)] ++ converted ∧
      (converted = [] ∨ converted = [Event.convert_from_stack_based node (some inner)]) := by
  obtain ⟨-, -, -, wrapped, last, -, h0, h1, h2, h3, h4, h5, h6, h7⟩ :=
    NRFunctionTraceWrapper_Type_call_fields _ _ _ _ _ _ _ hwrap
  simp +decide [parsedArgument, List.lookup] at h0 h5 h6 h7
  subst h0
  rw [← hsame] at h1 h3 h5 h6 h7
  have hX : PyString_AsString nameX = X := by rcases hname with rfl | rfl <;> rfl
  have hchk : (PyString_Check nameX || PyUnicode_Check nameX) = true := by
    rcases hname with rfl | rfl <;> rfl
  have hnn : nameX ≠ .Py_None := by rcases hname with rfl | rfl <;> simp
  have hcreate := NRFunctionTrace_Type_call_real env w t inner nameX .Py_None .Py_True hchk
    (by rfl) (by rfl) hrunning hreal
  simp only [if_true, hX] at hcreate
  unfold NRFunctionTraceWrapper_call
  simp only [hcurrent, NRFunctionTraceWrapper_call_name, h5, hnn, if_false, hchk, if_true,
    NRFunctionTraceWrapper_call_scope, h6, NRFunctionTraceWrapper_call_traced, h7]
  simp only [ne_eq, one_ne_zero, not_false_eq_true, if_true, hcreate]
  simp only [NRFunctionTrace_enter, World.emit, nr_node_header__record_starttime_and_push_current,
    reportUnraisable, NRFunctionTraceWrapper_call_wrapped, h3, h1, PyObject_Call,
    NRFunctionTrace_exit, nr_node_header__record_stoptime_and_pop_current,
    nr_node_header__delete_if_not_slow_enough, nr_web_transaction__convert_from_stack_based,
    PyErr_Fetch, PyErr_Restore, hreal]
  obtain ⟨node, hnode⟩ : ∃ node, node = env.allocateFunctionNode (w.log ++
      [Event.FunctionTrace_call [.NRTransaction t, nameX, .Py_None, .Py_True] none])
      inner X none "Function" := ⟨_, rfl⟩
  simp only [← hnode]
  obtain ⟨saved, hsaved⟩ : ∃ saved, saved = env.pushCurrent
      (w.log ++ [Event.FunctionTrace_call [.NRTransaction t, nameX, .Py_None, .Py_True] none,
        Event.allocate_function_node inner X none "Function"] ++ [Event.FunctionTrace_enter])
      node := ⟨_, rfl⟩
  simp only [← hsaved]
  rcases env.call (w.log ++ [Event.FunctionTrace_call
      [.NRTransaction t, nameX, .Py_None, .Py_True] none,
      Event.allocate_function_node inner X none "Function"] ++
      [Event.FunctionTrace_enter] ++ [Event.record_starttime_and_push_current node])
      f args kwds with e | v
  · simp only []
    split_ifs
    · exact ⟨node, saved, _, [e.type, e.value, e.traceback],
        [Event.convert_from_stack_based node (some inner)], _, rfl, rfl, by simp, Or.inr rfl⟩
    · exact ⟨node, saved, _, [e.type, e.value, e.traceback], [], _, rfl, rfl, by simp,
        Or.inl rfl⟩
  · simp only []
    split_ifs
    · exact ⟨node, saved, _, [.Py_None, .Py_None, .Py_None],
        [Event.convert_from_stack_based node (some inner)], _, rfl, rfl, by simp, Or.inr rfl⟩
    · exact ⟨node, saved, _, [.Py_None, .Py_None, .Py_None], [], _, rfl, rfl, by simp,
        Or.inl rfl⟩

/-- C2 at a closed instance: `wrap(f, name="X")` for the object numbered 5 in the
empty world, called with `"abc"` under the sample transaction. -/
theorem C2_named_trace_sequence_witness :
    (NRFunctionTraceWrapper_Type_call tracedEnv 1 emptyWorld [.object 5]
        (some [("name", .PyString "X")]) =
      some (.ok (.NRFunctionTraceWrapper 0),
        wrappedWorld tracedEnv [.object 5] (some [("name", .PyString "X")])) ∧
     NRTransaction_CurrentTransaction tracedEnv
        (wrappedWorld tracedEnv [.object 5] (some [("name", .PyString "X")])) =
      some sampleTransaction) ∧
    ∃ node saved result payload converted w',
      node = tracedEnv.allocateFunctionNode
        ((wrappedWorld tracedEnv [.object 5] (some [("name", .PyString "X")])).log ++
          [Event.FunctionTrace_call
            [.NRTransaction sampleTransaction, .PyString "X", .Py_None, .Py_True] none])
        7 "X" none "Function" ∧
      NRFunctionTraceWrapper_call tracedEnv
        (wrappedWorld tracedEnv [.object 5] (some [("name", .PyString "X")])) 0
        [.PyString "abc"] none = some (result, w') ∧
      w'.log = (wrappedWorld tracedEnv [.object 5] (some [("name", .PyString "X")])).log ++
        [Event.FunctionTrace_call
          [.NRTransaction sampleTransaction, .PyString "X", .Py_None, .Py_True] none,
         Event.allocate_function_node 7 "X" none "Function",
         Event.FunctionTrace_enter,
         Event.record_starttime_and_push_current node,
         Event.Call (.object 5) [.PyString "abc"] none,
         Event.FunctionTrace_exit payload,
         Event.record_stoptime_and_pop_current node saved,
         Event.delete_if_not_slow_enough node 1 (some 7)] ++ converted ∧
      (converted = [] ∨ converted = [Event.convert_from_stack_based node (some 7)]) :=
  ⟨⟨rfl, rfl⟩,
    C2_named_trace_sequence tracedEnv 1 emptyWorld
      (wrappedWorld tracedEnv [.object 5] (some [("name", .PyString "X")]))
      (wrappedWorld tracedEnv [.object 5] (some [("name", .PyString "X")]))
      (.object 5) (.PyString "X") "X" 0 sampleTransaction 7 [.PyString "abc"] none
      (Or.inl rfl) rfl rfl rfl rfl rfl⟩

/-- C3: on a call with a current transaction in which the name and the scope
were resolved and the trace handle was created, the wrapped target is called
once, `__enter__` having been invoked once before it, and `__exit__` is invoked
exactly once, right after the target.  When the target raises `e` the payload
of `__exit__` is the captured `(type, value, traceback)` of `e` and the call
fails with `e`; when the target returns `r` the payload is
`(None, None, None)` and the call returns `r`. -/
theorem C3_exit_once_with_outcome (env : Env) (w w1 w2 w3 : World) (self : Nat)
    (args : List PyObj) (kwds : Kwds) (t : NRTransactionObject) (name scope target : PyObj)
    (handle : NRFunctionTraceObject)
    (hcurrent : NRTransaction_CurrentTransaction env w = some t)
    (hname : NRFunctionTraceWrapper_call_name env w self args kwds = some (.ok name, w1))
    (hscope : NRFunctionTraceWrapper_call_scope env w1 self args kwds = some (.ok scope, w2))
    (hcreate : NRFunctionTrace_Type_call env w2
      [.NRTransaction t, name, scope, interestingFlag (w.heap self)] none = (.ok handle, w3))
    (htarget : wrappedTarget (w.heap self) = some target) :
    ∃ pre post outcome w',
      outcome = env.call (w3.log ++ pre) target args kwds ∧
      NRFunctionTraceWrapper_call env w self args kwds = some (outcome, w') ∧
      w'.log = w3.log ++ pre ++
        [Event.Call target args kwds, Event.FunctionTrace_exit (exitPayload outcome)] ++ post ∧
      pre.filter Event.isInvocation = [Event.FunctionTrace_enter] ∧
      post.filter Event.isInvocation = [] ∧
      (∀ e, outcome = .error e → exitPayload outcome = [e.type, e.value, e.traceback]) ∧
      (∀ r, outcome = .ok r → exitPayload outcome = [.Py_None, .Py_None, .Py_None]) := by
  have f1 := call_name_frame _ _ _ _ _ _ _ hname
  have f2 := call_scope_frame _ _ _ _ _ _ _ hscope
  have hh : w2.heap = w.heap := (f1.trans f2).1
  rw [← hh] at hcreate htarget
  obtain ⟨pre, post, w', h1, h2, h3, h4, -, -, -⟩ :=
    call_traced_created env w2 w3 self t name scope args kwds handle target hcreate htarget
  refine ⟨pre, post, _, w', rfl, ?_, h2, h3, h4, ?_, ?_⟩
  · rw [call_resolved env w w1 w2 self args kwds t name scope hcurrent hname hscope, h1]
  · intro e he; rw [he]; rfl
  · intro r hr; rw [hr]; rfl

/-- C3 at a closed instance: the proxy of an object raising `ValueError("boom")`,
called with no arguments under the sample transaction. -/
theorem C3_exit_once_with_outcome_witness :
    (NRTransaction_CurrentTransaction tracedEnv boomWorld = some sampleTransaction ∧
     NRFunctionTraceWrapper_call_name tracedEnv boomWorld 0 [] none =
      some (.ok (.PyString "callable"),
        boomWorld.emit (.CallableName (some (.object 6)) (.NRFunctionTraceWrapper 0) [] ":")) ∧
     NRFunctionTraceWrapper_call_scope tracedEnv
        (boomWorld.emit (.CallableName (some (.object 6)) (.NRFunctionTraceWrapper 0) [] ":"))
        0 [] none =
      some (.ok .Py_None,
        boomWorld.emit (.CallableName (some (.object 6)) (.NRFunctionTraceWrapper 0) [] ":")) ∧
     NRFunctionTrace_Type_call tracedEnv
        (boomWorld.emit (.CallableName (some (.object 6)) (.NRFunctionTraceWrapper 0) [] ":"))
        [.NRTransaction sampleTransaction, .PyString "callable", .Py_None,
          interestingFlag (boomWorld.heap 0)] none =
      (.ok { parent_transaction := some sampleTransaction, transaction_trace := some 1,
             saved_trace_node := none, interesting := 1 },
        { heap := boomWorld.heap, next := 1,
          log := [.CallableName (some (.object 6)) (.NRFunctionTraceWrapper 0) [] ":",
            .FunctionTrace_call [.NRTransaction sampleTransaction, .PyString "callable",
              .Py_None, .Py_True] none,
            .allocate_function_node 7 "callable" none "Function"] }) ∧
     wrappedTarget (boomWorld.heap 0) = some (.object 6)) ∧
    (∃ pre post outcome w',
      outcome = tracedEnv.call
        ([.CallableName (some (.object 6)) (.NRFunctionTraceWrapper 0) [] ":",
          .FunctionTrace_call [.NRTransaction sampleTransaction, .PyString "callable",
            .Py_None, .Py_True] none,
          .allocate_function_node 7 "callable" none "Function"] ++ pre) (.object 6) [] none ∧
      NRFunctionTraceWrapper_call tracedEnv boomWorld 0 [] none = some (outcome, w') ∧
      w'.log = [.CallableName (some (.object 6)) (.NRFunctionTraceWrapper 0) [] ":",
          .FunctionTrace_call [.NRTransaction sampleTransaction, .PyString "callable",
            .Py_None, .Py_True] none,
          .allocate_function_node 7 "callable" none "Function"] ++ pre ++
        [Event.Call (.object 6) [] none, Event.FunctionTrace_exit (exitPayload outcome)] ++
        post ∧
      pre.filter Event.isInvocation = [Event.FunctionTrace_enter] ∧
      post.filter Event.isInvocation = [] ∧
      (∀ e, outcome = .error e → exitPayload outcome = [e.type, e.value, e.traceback]) ∧
      (∀ r, outcome = .ok r → exitPayload outcome = [.Py_None, .Py_None, .Py_None])) ∧
    NRFunctionTraceWrapper_call tracedEnv boomWorld 0 [] none =
      some (.error boom,
        { heap := boomWorld.heap, next := 1,
          log := [.CallableName (some (.object 6)) (.NRFunctionTraceWrapper 0) [] ":",
            .FunctionTrace_call [.NRTransaction sampleTransaction, .PyString "callable",
              .Py_None, .Py_True] none,
            .allocate_function_node 7 "callable" none "Function",
            .FunctionTrace_enter,
            .record_starttime_and_push_current 1,
            .Call (.object 6) [] none,
            .FunctionTrace_exit [.PyExc_ValueError, .PyString "boom", .Py_None],
            .record_stoptime_and_pop_current 1 none,
            .delete_if_not_slow_enough 1 1 (some 7),
            .convert_from_stack_based 1 (some 7)] }) :=
  ⟨⟨rfl, rfl, rfl, rfl, rfl⟩,
    C3_exit_once_with_outcome tracedEnv boomWorld _ _ _ 0 [] none sampleTransaction
      (.PyString "callable") .Py_None (.object 6) _ rfl rfl rfl rfl rfl, rfl⟩

/-- C4, as stated, fails: the current transaction is not running, the name "X"
and the absent scope are resolved, creating the trace handle raises
`RuntimeError("transaction not active")`, and the call returns that error
without calling the wrapped object, the creation being the only event. -/
theorem C4_counterexample :
    NRFunctionTraceWrapper_call_name pendingEnv namedWorld 0 [.PyString "abc"] none =
      some (.ok (.PyString "X"), namedWorld) ∧
    NRFunctionTraceWrapper_call_scope pendingEnv namedWorld 0 [.PyString "abc"] none =
      some (.ok .Py_None, namedWorld) ∧
    NRFunctionTraceWrapper_call pendingEnv namedWorld 0 [.PyString "abc"] none =
      some (.error (PyErr_SetString .PyExc_RuntimeError "transaction not active"),
        { heap := namedWorld.heap, next := 1,
          log := [.FunctionTrace_call [.NRTransaction pendingTransaction, .PyString "X",
            .Py_None, .Py_True] none] }) :=
  ⟨rfl, rfl, rfl⟩

/-- C4, amended: on a call with a current transaction in which the name and
the scope were resolved, an error raised while creating the trace handle is
returned to the caller and the wrapped target is not called, the creation
being the last event; when the handle is created, `__enter__` does not fail,
the wrapped target is called exactly once with the original arguments, and the
caller receives the result or error of the target. -/
theorem C4_creation_error_surfaces (env : Env) (w w1 w2 : World) (self : Nat)
    (args : List PyObj) (kwds : Kwds) (t : NRTransactionObject) (name scope target : PyObj)
    (hcurrent : NRTransaction_CurrentTransaction env w = some t)
    (hname : NRFunctionTraceWrapper_call_name env w self args kwds = some (.ok name, w1))
    (hscope : NRFunctionTraceWrapper_call_scope env w1 self args kwds = some (.ok scope, w2))
    (htarget : wrappedTarget (w.heap self) = some target) :
    (∀ e w3, NRFunctionTrace_Type_call env w2
        [.NRTransaction t, name, scope, interestingFlag (w.heap self)] none = (.error e, w3) →
      NRFunctionTraceWrapper_call env w self args kwds =
        some (.error e, w2.emit (.FunctionTrace_call
          [.NRTransaction t, name, scope, interestingFlag (w.heap self)] none))) ∧
    (∀ handle w3, NRFunctionTrace_Type_call env w2
        [.NRTransaction t, name, scope, interestingFlag (w.heap self)] none = (.ok handle, w3) →
      (∃ entered, (NRFunctionTrace_enter env w3 handle).1 = .ok entered) ∧
      ∃ pre post w',
        NRFunctionTraceWrapper_call env w self args kwds =
          some (env.call (w3.log ++ pre) target args kwds, w') ∧
        w'.log = w3.log ++ pre ++ [Event.Call target args kwds] ++ post ∧
        pre.filter Event.isInvocation = [Event.FunctionTrace_enter] ∧
        post.filter Event.isInvocation = [Event.FunctionTrace_exit
          (exitPayload (env.call (w3.log ++ pre) target args kwds))]) := by
  have f1 := call_name_frame _ _ _ _ _ _ _ hname
  have f2 := call_scope_frame _ _ _ _ _ _ _ hscope
  have hh : w2.heap = w.heap := (f1.trans f2).1
  have hcall := call_resolved env w w1 w2 self args kwds t name scope hcurrent hname hscope
  constructor
  · intro e w3 hcreate
    have hw3 := NRFunctionTrace_Type_call_error _ _ _ _ _ _ _ _ hcreate
    rw [hcall]
    unfold NRFunctionTraceWrapper_call_traced
    unfold interestingFlag at hcreate hw3
    rw [hh, hcreate, hw3]
    rfl
  · intro handle w3 hcreate
    constructor
    · unfold NRFunctionTrace_enter
      cases handle.transaction_trace <;> exact ⟨_, rfl⟩
    · rw [← hh] at hcreate htarget
      obtain ⟨pre, post, w', h1, h2, h3, h4, -, -, -⟩ :=
        call_traced_created env w2 w3 self t name scope args kwds handle target hcreate htarget
      refine ⟨pre, Event.FunctionTrace_exit (exitPayload
        (env.call (w3.log ++ pre) target args kwds)) :: post, w', ?_, ?_, h3, ?_⟩
      · rw [hcall, h1]
      · rw [h2]; simp
      · simp [List.filter, Event.isInvocation, h4]

/-- C4 at a closed instance: the literal name "X" under a transaction that is
not running. -/
theorem C4_creation_error_surfaces_witness :
    (NRTransaction_CurrentTransaction pendingEnv namedWorld = some pendingTransaction ∧
     NRFunctionTraceWrapper_call_name pendingEnv namedWorld 0 [.PyString "abc"] none =
      some (.ok (.PyString "X"), namedWorld) ∧
     NRFunctionTraceWrapper_call_scope pendingEnv namedWorld 0 [.PyString "abc"] none =
      some (.ok .Py_None, namedWorld) ∧
     wrappedTarget (namedWorld.heap 0) = some (.object 5) ∧
     NRFunctionTrace_Type_call pendingEnv namedWorld
        [.NRTransaction pendingTransaction, .PyString "X", .Py_None,
          interestingFlag (namedWorld.heap 0)] none =
      (.error (PyErr_SetString .PyExc_RuntimeError "transaction not active"),
        namedWorld.emit (.FunctionTrace_call [.NRTransaction pendingTransaction,
          .PyString "X", .Py_None, .Py_True] none))) ∧
    NRFunctionTraceWrapper_call pendingEnv namedWorld 0 [.PyString "abc"] none =
      some (.error (PyErr_SetString .PyExc_RuntimeError "transaction not active"),
        namedWorld.emit (.FunctionTrace_call [.NRTransaction pendingTransaction,
          .PyString "X", .Py_None, interestingFlag (namedWorld.heap 0)] none)) :=
  ⟨⟨rfl, rfl, rfl, rfl, rfl⟩,
    (C4_creation_error_surfaces pendingEnv namedWorld namedWorld namedWorld 0
      [.PyString "abc"] none pendingTransaction (.PyString "X") .Py_None (.object 5)
      rfl rfl rfl rfl).1 _ _ rfl⟩

/-- C5, as stated, fails: a second `__exit__` on a started handle consults the
trace-tree collaborator again, with a second record-stop-and-pop, a second
discard query and a second conversion. -/
theorem C5_counterexample :
    NRFunctionTrace_exit tracedEnv emptyWorld startedHandle [] =
      some (.ok .Py_None, { startedHandle with saved_trace_node := none },
        { heap := emptyWorld.heap, next := 0,
          log := [.FunctionTrace_exit [], .record_stoptime_and_pop_current 1 (some 2),
            .delete_if_not_slow_enough 1 1 (some 7), .convert_from_stack_based 1 (some 7)] }) ∧
    NRFunctionTrace_exit tracedEnv
        { heap := emptyWorld.heap, next := 0,
          log := [.FunctionTrace_exit [], .record_stoptime_and_pop_current 1 (some 2),
            .delete_if_not_slow_enough 1 1 (some 7), .convert_from_stack_based 1 (some 7)] }
        { startedHandle with saved_trace_node := none } [] =
      some (.ok .Py_None, { startedHandle with saved_trace_node := none },
        { heap := emptyWorld.heap, next := 0,
          log := [.FunctionTrace_exit [], .record_stoptime_and_pop_current 1 (some 2),
            .delete_if_not_slow_enough 1 1 (some 7), .convert_from_stack_based 1 (some 7),
            .FunctionTrace_exit [], .record_stoptime_and_pop_current 1 none,
            .delete_if_not_slow_enough 1 1 (some 7), .convert_from_stack_based 1 (some 7)] }) :=
  ⟨rfl, rfl⟩

/-- C5, amended: on a trace handle backed by a node and started, a second
`__exit__` returns `None` and leaves every field of the handle as the first
left it, the saved cursor staying cleared, but it consults the trace-tree
collaborator again.  The second `__exit__` adds to the log, in this order: one
more record-stop-and-pop on the node, now with no saved cursor; one more
discard query on the node with the flag of the handle and the inner
transaction; and one more conversion of the node exactly when that second
query answered that the node was not discarded, and none when it answered
that it was.  The first `__exit__` does the same with the cursor that
`__enter__` saved. -/
theorem C5_second_stop_repeats (env : Env) (w : World) (handle : NRFunctionTraceObject)
    (args1 args2 : List PyObj) (node : NodeRef) (t : NRTransactionObject)
    (hnode : handle.transaction_trace = some node)
    (hparent : handle.parent_transaction = some t) :
    ∃ w1,
      w1 =
        { heap := w.heap, next := w.next,
          log := w.log ++
            [Event.FunctionTrace_exit args1,
             Event.record_stoptime_and_pop_current node handle.saved_trace_node,
             Event.delete_if_not_slow_enough node handle.interesting t.transaction] ++
            (if env.deleteIfNotSlowEnough
                (w.log ++ [Event.FunctionTrace_exit args1,
                  Event.record_stoptime_and_pop_current node handle.saved_trace_node])
                node handle.interesting t.transaction = true
             then []
             else [Event.convert_from_stack_based node t.transaction]) } ∧
      NRFunctionTrace_exit env w handle args1 =
        some (.ok .Py_None, { handle with saved_trace_node := none }, w1) ∧
      NRFunctionTrace_exit env w1 { handle with saved_trace_node := none } args2 =
        some (.ok .Py_None, { handle with saved_trace_node := none },
          { heap := w1.heap, next := w1.next,
            log := w1.log ++
              [Event.FunctionTrace_exit args2,
               Event.record_stoptime_and_pop_current node none,
               Event.delete_if_not_slow_enough node handle.interesting t.transaction] ++
              (if env.deleteIfNotSlowEnough
                  (w1.log ++ [Event.FunctionTrace_exit args2,
                    Event.record_stoptime_and_pop_current node none])
                  node handle.interesting t.transaction = true
               then []
               else [Event.convert_from_stack_based node t.transaction]) }) :=
  ⟨_, rfl, exit_backed env w handle args1 node t hnode hparent,
    exit_backed env _ { handle with saved_trace_node := none } args2 node t hnode hparent⟩

/-- C5 at two closed instances.  Under the sample collaborators the discard
query answers that the node is kept, and both stops convert it; under the
discarding collaborators it answers that the node is discarded, and neither
stop converts it, while the second stop still repeats the record-stop-and-pop
and the query. -/
theorem C5_second_stop_repeats_witness :
    ((startedHandle.transaction_trace = some 1 ∧
      startedHandle.parent_transaction = some sampleTransaction) ∧
     NRFunctionTrace_exit tracedEnv
        { heap := emptyWorld.heap, next := 0,
          log := [.FunctionTrace_exit [], .record_stoptime_and_pop_current 1 (some 2),
            .delete_if_not_slow_enough 1 1 (some 7), .convert_from_stack_based 1 (some 7)] }
        { startedHandle with saved_trace_node := none } [] =
      some (.ok .Py_None, { startedHandle with saved_trace_node := none },
        { heap := emptyWorld.heap, next := 0,
          log := [.FunctionTrace_exit [], .record_stoptime_and_pop_current 1 (some 2),
            .delete_if_not_slow_enough 1 1 (some 7), .convert_from_stack_based 1 (some 7),
            .FunctionTrace_exit [], .record_stoptime_and_pop_current 1 none,
            .delete_if_not_slow_enough 1 1 (some 7),
            .convert_from_stack_based 1 (some 7)] })) ∧
    NRFunctionTrace_exit discardingEnv
        { heap := emptyWorld.heap, next := 0,
          log := [.FunctionTrace_exit [], .record_stoptime_and_pop_current 1 (some 2),
            .delete_if_not_slow_enough 1 1 (some 7)] }
        { startedHandle with saved_trace_node := none } [] =
      some (.ok .Py_None, { startedHandle with saved_trace_node := none },
        { heap := emptyWorld.heap, next := 0,
          log := [.FunctionTrace_exit [], .record_stoptime_and_pop_current 1 (some 2),
            .delete_if_not_slow_enough 1 1 (some 7),
            .FunctionTrace_exit [], .record_stoptime_and_pop_current 1 none,
            .delete_if_not_slow_enough 1 1 (some 7)] }) := by
  obtain ⟨w1, hw1, -, h2⟩ :=
    C5_second_stop_repeats tracedEnv emptyWorld startedHandle [] [] 1 sampleTransaction rfl rfl
  obtain ⟨v1, hv1, -, k2⟩ :=
    C5_second_stop_repeats discardingEnv emptyWorld startedHandle [] [] 1 sampleTransaction
      rfl rfl
  subst hw1 hv1
  exact ⟨⟨⟨rfl, rfl⟩, h2⟩, k2⟩

/-- C6: creating a trace handle against a transaction that is not running,
with a text name and a text or absent scope, fails with
`RuntimeError("transaction not active")`; no event is added to the log, so no
trace node is allocated, and the handle is left as `NRFunctionTrace_new` made
it, with no transaction reference and no node.  The scope and the flag may
also be left out. -/
theorem C6_not_running_rejected (env : Env) (w : World) (t : NRTransactionObject)
    (name scope flag : PyObj)
    (hstate : t.transaction_state ≠ .NR_TRANSACTION_STATE_RUNNING)
    (hname : (PyString_Check name || PyUnicode_Check name) = true)
    (hscope : scope = .Py_None ∨ (PyString_Check scope || PyUnicode_Check scope) = true)
    (hflag : PyBool_Check flag = true) :
    NRFunctionTrace_init env w NRFunctionTrace_new [.NRTransaction t, name, scope, flag] none =
      (.error (PyErr_SetString .PyExc_RuntimeError "transaction not active"),
        NRFunctionTrace_new, w) ∧
    NRFunctionTrace_init env w NRFunctionTrace_new [.NRTransaction t, name, scope] none =
      (.error (PyErr_SetString .PyExc_RuntimeError "transaction not active"),
        NRFunctionTrace_new, w) ∧
    NRFunctionTrace_init env w NRFunctionTrace_new [.NRTransaction t, name] none =
      (.error (PyErr_SetString .PyExc_RuntimeError "transaction not active"),
        NRFunctionTrace_new, w) ∧
    NRFunctionTrace_Type_call env w [.NRTransaction t, name, scope, flag] none =
      (.error (PyErr_SetString .PyExc_RuntimeError "transaction not active"),
        w.emit (.FunctionTrace_call [.NRTransaction t, name, scope, flag] none)) ∧
    NRFunctionTrace_new.parent_transaction = none ∧
    NRFunctionTrace_new.transaction_trace = none := by
  have h1 : (!PyString_Check name && !PyUnicode_Check name) = false := by
    revert hname; cases PyString_Check name <;> cases PyUnicode_Check name <;> simp
  have h2 : (!PyString_Check scope && !PyUnicode_Check scope && (scope != .Py_None)) = false := by
    rcases hscope with rfl | hscope
    · rfl
    · revert hscope
      cases PyString_Check scope <;> cases PyUnicode_Check scope <;> simp
  have h3 : (t.transaction_state != .NR_TRANSACTION_STATE_RUNNING) = true := by
    simpa [bne_iff_ne] using hstate
  have hb : PyBool_Check .Py_True = true := rfl
  have hn : (!PyString_Check .Py_None && !PyUnicode_Check .Py_None &&
      (PyObj.Py_None != .Py_None)) = false := rfl
  refine ⟨?_, ?_, ?_, ?_, rfl, rfl⟩
  · simp [NRFunctionTrace_init, keywordsAccepted, parsedArgument, hflag, h1, h2, h3,
      NRFunctionTrace_new]
  · simp [NRFunctionTrace_init, keywordsAccepted, parsedArgument, h1, h2, h3,
      NRFunctionTrace_new, hb]
  · simp [NRFunctionTrace_init, keywordsAccepted, parsedArgument, h1, h3,
      NRFunctionTrace_new, hb, hn]
  · simp [NRFunctionTrace_Type_call, NRFunctionTrace_init, keywordsAccepted, parsedArgument,
      hflag, h1, h2, h3, NRFunctionTrace_new]

/-- C6 at a closed instance: the transaction that has not been started. -/
theorem C6_not_running_rejected_witness :
    (pendingTransaction.transaction_state ≠ .NR_TRANSACTION_STATE_RUNNING ∧
     (PyString_Check (.PyString "X") || PyUnicode_Check (.PyString "X")) = true ∧
     PyBool_Check .Py_True = true) ∧
    NRFunctionTrace_init tracedEnv emptyWorld NRFunctionTrace_new
        [.NRTransaction pendingTransaction, .PyString "X", .Py_None, .Py_True] none =
      (.error (PyErr_SetString .PyExc_RuntimeError "transaction not active"),
        NRFunctionTrace_new, emptyWorld) :=
  ⟨⟨by decide, rfl, rfl⟩,
    (C6_not_running_rejected tracedEnv emptyWorld pendingTransaction (.PyString "X") .Py_None
      .Py_True (by decide) rfl (Or.inl rfl) rfl).1⟩

/-- C7: proxy chain flattening.  First part, for every target `t` of a `wrap`
that returns the proxy `a`: `next_object` is `t`; `last_object` is the
`last_object` of `t` when `t` is an initialised proxy, the value of
`__last_object__` when `t` is another object carrying `__newrelic__` and
exposing `__last_object__`, and `t` itself otherwise.  Second part, for every
object `f` that is not a proxy and does not carry `__newrelic__`, and every
`n >= 1`: wrapping `f` `n` times returns a proxy whose `last_object` is `f`,
and reading `__doc__`, `__name__` or `__module__` on it is reading that
attribute on `f` (once more when the first read fails). -/
theorem C7_chain_flattening (env : Env) (fuel : Nat) (w : World) :
    (∀ t rest kwds a w',
      NRFunctionTraceWrapper_Type_call env fuel w (t :: rest) kwds =
        some (.ok (.NRFunctionTraceWrapper a), w') →
      (w'.heap a).next_object = some t ∧
      (∀ b l, t = .NRFunctionTraceWrapper b → b < w.next →
        (w.heap b).last_object = some l → (w'.heap a).last_object = some l) ∧
      (∀ b, t = .NRFunctionTraceWrapper b → b < w.next →
        (w.heap b).last_object = none → (w'.heap a).last_object = some t) ∧
      (notProxy t → ∀ m l, env.getattr w.log t "__newrelic__" = .ok m →
        env.getattr (w.log ++ [.GetAttr t "__newrelic__"]) t "__last_object__" = .ok l →
        (w'.heap a).last_object = some l) ∧
      (notProxy t → ∀ m e, env.getattr w.log t "__newrelic__" = .ok m →
        env.getattr (w.log ++ [.GetAttr t "__newrelic__"]) t "__last_object__" = .error e →
        (w'.heap a).last_object = some t) ∧
      (notProxy t → ∀ e, env.getattr w.log t "__newrelic__" = .error e →
        (w'.heap a).last_object = some t)) ∧
    (∀ f n, notProxy f → (∀ log, ∃ e, env.getattr log f "__newrelic__" = .error e) →
      1 ≤ n → 1 ≤ fuel →
      ∃ a w', wrapTimes env fuel n w f = some (.NRFunctionTraceWrapper a, w') ∧
        (w'.heap a).last_object = some f ∧
        ∀ w'' name, w''.heap a = w'.heap a →
          name = "__doc__" ∨ name = "__name__" ∨ name = "__module__" →
          PyObject_GetAttr env fuel w'' (.NRFunctionTraceWrapper a) name =
            some (readTwice env w'' f name)) := by
  constructor
  · intro t rest kwds a w' hwrap
    obtain ⟨ha, -, -, wrapped, last, ⟨w1, w2, k1, k2, -, k4⟩, h0, h1, h2, -⟩ :=
      NRFunctionTraceWrapper_Type_call_fields _ _ _ _ _ _ _ hwrap
    simp only [parsedArgument, List.get?, Option.some.injEq] at h0
    subst h0
    refine ⟨h1, ?_, ?_, ?_, ?_, ?_⟩
    · intro b l hb hlt hl
      subst hb
      have hl1 : (w1.heap b).last_object = some l := by rw [k4 b (by omega)]; exact hl
      cases fuel with
      | zero => rw [init_last_zero] at k1; simp at k1
      | succ k =>
        rw [init_last_proxy env k w1 b l hl1] at k1
        simp only [Option.some.injEq, Prod.mk.injEq] at k1
        rw [h2, k1.1]
    · intro b hb hlt hl
      subst hb
      have hl1 : (w1.heap b).last_object = none := by rw [k4 b (by omega)]; exact hl
      cases fuel with
      | zero => rw [init_last_zero] at k1; simp at k1
      | succ k =>
        rw [init_last_uninitialised env k w1 b hl1] at k1
        simp only [Option.some.injEq, Prod.mk.injEq] at k1
        rw [h2, k1.1]
    · intro ht m l hm hlast
      obtain ⟨w3, h3⟩ := init_last_plain env fuel w1 t ht
      rw [k2, hm] at h3
      simp only [hlast] at h3
      rw [h3] at k1
      simp only [Option.some.injEq, Prod.mk.injEq] at k1
      rw [h2, k1.1]
    · intro ht m e hm hlast
      obtain ⟨w3, h3⟩ := init_last_plain env fuel w1 t ht
      rw [k2, hm] at h3
      simp only [hlast] at h3
      rw [h3] at k1
      simp only [Option.some.injEq, Prod.mk.injEq] at k1
      rw [h2, k1.1]
    · intro ht e hm
      obtain ⟨w3, h3⟩ := init_last_plain env fuel w1 t ht
      rw [k2, hm] at h3
      rw [h3] at k1
      simp only [Option.some.injEq, Prod.mk.injEq] at k1
      rw [h2, k1.1]
  · intro f n hf hmarker hn hfuel
    obtain ⟨k, rfl⟩ : ∃ k, n = k + 1 := ⟨n - 1, by omega⟩
    obtain ⟨a, w', h1, -, h2⟩ := wrapTimes_flat env fuel f hf hmarker hfuel k w
    refine ⟨a, w', h1, h2, ?_⟩
    intro w'' name hheap hname
    obtain ⟨fuel', rfl⟩ : ∃ k, fuel = k + 1 := ⟨fuel - 1, by omega⟩
    exact PyObject_GetAttr_identity env fuel' w'' a f name (by rw [hheap]; exact h2) hf hname

/-- C7 at closed instances: a proxy of the proxy of the object numbered 5 has
that object as `last_object`; wrapping the object three times returns the
proxy at address 2, whose `last_object` is the object and whose `__doc__` is
the one of the object. -/
theorem C7_chain_flattening_witness :
    (NRFunctionTraceWrapper_Type_call tracedEnv 1 (wrappedWorld tracedEnv [.object 5] none)
        [.NRFunctionTraceWrapper 0] none =
      some (.ok (.NRFunctionTraceWrapper 1),
        wrappedFrom tracedEnv (wrappedWorld tracedEnv [.object 5] none)
          [.NRFunctionTraceWrapper 0] none) ∧
     ((wrappedWorld tracedEnv [.object 5] none).heap 0).last_object = some (.object 5) ∧
     ((wrappedFrom tracedEnv (wrappedWorld tracedEnv [.object 5] none)
          [.NRFunctionTraceWrapper 0] none).heap 1).last_object = some (.object 5)) ∧
    (notProxy (.object 5) ∧
     (∀ log, ∃ e, tracedEnv.getattr log (.object 5) "__newrelic__" = .error e) ∧
     ∃ a w', wrapTimes tracedEnv 1 3 emptyWorld (.object 5) =
        some (.NRFunctionTraceWrapper a, w') ∧
      (w'.heap a).last_object = some (.object 5) ∧
      ∀ w'' name, w''.heap a = w'.heap a →
        name = "__doc__" ∨ name = "__name__" ∨ name = "__module__" →
        PyObject_GetAttr tracedEnv 1 w'' (.NRFunctionTraceWrapper a) name =
          some (readTwice tracedEnv w'' (.object 5) name)) ∧
    (wrapTimes tracedEnv 1 3 emptyWorld (.object 5)).map Prod.fst =
      some (.NRFunctionTraceWrapper 2) ∧
    ((wrapTimes tracedEnv 1 3 emptyWorld (.object 5)).bind
      (fun r => PyObject_GetAttr tracedEnv 1 r.2 r.1 "__doc__")).map Prod.fst =
      some (.ok (.PyString "__doc__")) :=
  ⟨⟨rfl, rfl,
      ((C7_chain_flattening tracedEnv 1 (wrappedWorld tracedEnv [.object 5] none)).1
        (.NRFunctionTraceWrapper 0) [] none 1 _ rfl).2.1 0 (.object 5) rfl (by decide) rfl⟩,
    ⟨(fun _ h => PyObj.noConfusion h), (fun _ => ⟨_, rfl⟩),
      (C7_chain_flattening tracedEnv 1 emptyWorld).2 (.object 5) 3
        (fun _ h => PyObj.noConfusion h) (fun _ => ⟨_, rfl⟩) (by decide) (by decide)⟩,
    rfl, rfl⟩

/-- C8: name resolution on a call with a current transaction.  A literal text
name is resolved without any event and the trace handle is created with
exactly that text.  A callable name is called once, with the original keyword
arguments and with the original positional arguments, after the captured
`self_object` when the proxy is descriptor-bound; when it returns `v` the trace
handle is created with `v` as its name, and when it raises the call fails with
that error, the call of the name callable being the only event, so that the
wrapped target is not called. -/
theorem C8_name_resolution (env : Env) (w : World) (self : Nat) (args : List PyObj)
    (kwds : Kwds) (t : NRTransactionObject) (spec target : PyObj)
    (hcurrent : NRTransaction_CurrentTransaction env w = some t)
    (hspec : (w.heap self).name = some spec)
    (htarget : wrappedTarget (w.heap self) = some target) :
    ((PyString_Check spec || PyUnicode_Check spec) = true →
      NRFunctionTraceWrapper_call_name env w self args kwds = some (.ok spec, w) ∧
      ∀ scope w2, NRFunctionTraceWrapper_call_scope env w self args kwds =
          some (.ok scope, w2) →
        ∃ r w' rest, NRFunctionTraceWrapper_call env w self args kwds = some (r, w') ∧
          w'.log = w2.log ++ Event.FunctionTrace_call
            [.NRTransaction t, spec, scope, interestingFlag (w.heap self)] none :: rest) ∧
    (spec ≠ .Py_None → (PyString_Check spec || PyUnicode_Check spec) = false →
      ∀ nargs, reconstructedArgs (w.heap self) args = some nargs →
        NRFunctionTraceWrapper_call_name env w self args kwds =
          some (env.call w.log spec nargs kwds, w.emit (.Call spec nargs kwds)) ∧
        (∀ e, env.call w.log spec nargs kwds = .error e →
          NRFunctionTraceWrapper_call env w self args kwds =
            some (.error e, w.emit (.Call spec nargs kwds))) ∧
        (∀ v, env.call w.log spec nargs kwds = .ok v →
          ∀ scope w2, NRFunctionTraceWrapper_call_scope env (w.emit (.Call spec nargs kwds))
              self args kwds = some (.ok scope, w2) →
            ∃ r w' rest, NRFunctionTraceWrapper_call env w self args kwds = some (r, w') ∧
              w'.log = w2.log ++ Event.FunctionTrace_call
                [.NRTransaction t, v, scope, interestingFlag (w.heap self)] none :: rest)) := by
  constructor
  · intro htext
    have hne : spec ≠ .Py_None := by
      intro h; subst h; simp [PyString_Check, PyUnicode_Check] at htext
    have hname : NRFunctionTraceWrapper_call_name env w self args kwds = some (.ok spec, w) := by
      simp [NRFunctionTraceWrapper_call_name, hspec, hne, htext]
    refine ⟨hname, ?_⟩
    intro scope w2 hscope
    have f2 := call_scope_frame _ _ _ _ _ _ _ hscope
    have ht2 : wrappedTarget (w2.heap self) = some target := by rw [f2.1]; exact htarget
    obtain ⟨r, w', rest, h1, h2⟩ :=
      call_traced_begins env w2 self t spec scope args kwds target ht2
    refine ⟨r, w', rest, ?_, ?_⟩
    · rw [call_resolved env w w w2 self args kwds t spec scope hcurrent hname hscope, h1]
    · rw [h2, f2.1]
  · intro hne hcallable nargs hargs
    have hname : NRFunctionTraceWrapper_call_name env w self args kwds =
        some (env.call w.log spec nargs kwds, w.emit (.Call spec nargs kwds)) := by
      unfold reconstructedArgs at hargs
      unfold NRFunctionTraceWrapper_call_name
      simp only [hspec, hne, if_false, hcallable, Bool.false_eq_true]
      cases hd : (w.heap self).descr_object with
      | none =>
        simp only [hd, Option.some.injEq] at hargs
        subst hargs
        simp [PyObject_Call]
      | some d =>
        simp only [hd] at hargs
        cases hs : (w.heap self).self_object with
        | none => simp [hs] at hargs
        | some s =>
          simp only [hs, Option.map_some', Option.some.injEq] at hargs
          subst hargs
          simp [PyObject_Call]
    refine ⟨hname, ?_, ?_⟩
    · intro e he
      unfold NRFunctionTraceWrapper_call
      simp only [hcurrent, hname, he]
    · intro v hv scope w2 hscope
      rw [hv] at hname
      have f1 := call_name_frame _ _ _ _ _ _ _ hname
      have f2 := call_scope_frame _ _ _ _ _ _ _ hscope
      have hh : w2.heap = w.heap := (f1.trans f2).1
      have ht2 : wrappedTarget (w2.heap self) = some target := by rw [hh]; exact htarget
      obtain ⟨r, w', rest, h1, h2⟩ :=
        call_traced_begins env w2 self t v scope args kwds target ht2
      refine ⟨r, w', rest, ?_, ?_⟩
      · rw [call_resolved env w _ w2 self args kwds t v scope hcurrent hname hscope, h1]
      · rw [h2, hh]

/-- C8 at a closed instance, the scenario of the claim: the decorator with the
name callable `lambda *a: a[0].upper()` applied to `lambda s: s`; calling the
proxy with `"abc"` under the sample transaction calls the name callable with
`"abc"`, creates the trace handle and the node with the name `"ABC"`, and
returns `"abc"`. -/
theorem C8_name_resolution_witness :
    (NRTransaction_CurrentTransaction tracedEnv upperWorld = some sampleTransaction ∧
     (upperWorld.heap 0).name = some (.object 9) ∧
     wrappedTarget (upperWorld.heap 0) = some (.object 5) ∧
     reconstructedArgs (upperWorld.heap 0) [.PyString "abc"] = some [.PyString "abc"] ∧
     tracedEnv.call upperWorld.log (.object 9) [.PyString "abc"] none = .ok (.PyString "ABC") ∧
     NRFunctionTraceWrapper_call_scope tracedEnv
        (upperWorld.emit (.Call (.object 9) [.PyString "abc"] none)) 0 [.PyString "abc"] none =
      some (.ok .Py_None, upperWorld.emit (.Call (.object 9) [.PyString "abc"] none))) ∧
    (∃ r w' rest,
      NRFunctionTraceWrapper_call tracedEnv upperWorld 0 [.PyString "abc"] none = some (r, w') ∧
      w'.log = (upperWorld.emit (.Call (.object 9) [.PyString "abc"] none)).log ++
        Event.FunctionTrace_call [.NRTransaction sampleTransaction, .PyString "ABC", .Py_None,
          interestingFlag (upperWorld.heap 0)] none :: rest) ∧
    NRFunctionTraceWrapper_call tracedEnv upperWorld 0 [.PyString "abc"] none =
      some (.ok (.PyString "abc"),
        { heap := upperWorld.heap, next := upperWorld.next,
          log := upperWorld.log ++
            [.Call (.object 9) [.PyString "abc"] none,
             .FunctionTrace_call [.NRTransaction sampleTransaction, .PyString "ABC", .Py_None,
               .Py_True] none,
             .allocate_function_node 7 "ABC" none "Function",
             .FunctionTrace_enter,
             .record_starttime_and_push_current 1,
             .Call (.object 5) [.PyString "abc"] none,
             .FunctionTrace_exit [.Py_None, .Py_None, .Py_None],
             .record_stoptime_and_pop_current 1 none,
             .delete_if_not_slow_enough 1 1 (some 7),
             .convert_from_stack_based 1 (some 7)] }) :=
  ⟨⟨rfl, rfl, rfl, rfl, rfl, rfl⟩,
    ((C8_name_resolution tracedEnv upperWorld 0 [.PyString "abc"] none sampleTransaction
      (.object 9) (.object 5) rfl rfl rfl).2 (by decide) rfl [.PyString "abc"] rfl).2.2
      (.PyString "ABC") rfl .Py_None _ rfl,
    rfl⟩

/-- C9, the code at the failing input: on a descriptor-bound proxy the scope
callable is called with the original positional arguments only, whereas the
name callable of the same proxy is called with the captured `self_object`
before them. -/
theorem C9_scope_callable_without_self :
    NRFunctionTraceWrapper_call_scope tracedEnv boundScopeWorld 0 [.PyString "abc"] none =
      some (tracedEnv.call [] (.object 9) [.PyString "abc"] none,
        boundScopeWorld.emit (.Call (.object 9) [.PyString "abc"] none)) ∧
    NRFunctionTraceWrapper_call_name tracedEnv boundNameWorld 0 [.PyString "abc"] none =
      some (tracedEnv.call [] (.object 9) [.object 12, .PyString "abc"] none,
        boundNameWorld.emit (.Call (.object 9) [.object 12, .PyString "abc"] none)) ∧
    (NRFunctionTraceWrapper_call tracedEnv boundScopeWorld 0 [.PyString "abc"] none).map
        (fun r => r.2.log.filter Event.isInvocation) =
      some [.Call (.object 9) [.PyString "abc"] none,
        .FunctionTrace_call [.NRTransaction sampleTransaction, .PyString "X", .PyString "ABC",
          .Py_True] none,
        .FunctionTrace_enter,
        .Call (.object 11) [.PyString "abc"] none,
        .FunctionTrace_exit [.Py_None, .Py_None, .Py_None]] :=
  ⟨rfl, rfl, rfl⟩

/-- C11: binding never mutates the parent.  For an allocated proxy, whatever
the instance and the owner type, `NRFunctionTraceWrapper_descr_get` leaves
every field of the proxy as it was.  When its `next_object` is bindable,
binding it to an instance `a` and then to an instance `b` returns two proxies
at distinct addresses, both distinct from the parent, whose `self_object` are
`a` and `b` and whose `descr_object` are the methods bound to `a` and to `b`;
the second binding leaves the first bound proxy and the parent as they were. -/
theorem C11_binding_keeps_parent (env : Env) (fuel : Nat) (w : World) (self : Nat)
    (hself : self < w.next) :
    (∀ object type r w',
      NRFunctionTraceWrapper_descr_get env fuel w self object type = some (r, w') →
      w'.heap self = w.heap self) ∧
    (∀ a Ta next_object ma w1 da,
      (w.heap self).next_object = some next_object → a ≠ .Py_None →
      PyObject_GetAttr env fuel w next_object "__get__" = some (.ok ma, w1) →
      env.call w1.log ma [a, Ta] none = .ok da →
      ∃ wa, NRFunctionTraceWrapper_descr_get env fuel w self (some a) (some Ta) =
          some (.ok (.NRFunctionTraceWrapper w.next), wa) ∧
        (wa.heap w.next).self_object = some a ∧
        (wa.heap w.next).descr_object = some da ∧
        wa.heap self = w.heap self ∧
        ∀ b Tb mb w3 db, b ≠ .Py_None →
          PyObject_GetAttr env fuel wa next_object "__get__" = some (.ok mb, w3) →
          env.call w3.log mb [b, Tb] none = .ok db →
          ∃ wb, NRFunctionTraceWrapper_descr_get env fuel wa self (some b) (some Tb) =
              some (.ok (.NRFunctionTraceWrapper (w.next + 1)), wb) ∧
            w.next + 1 ≠ w.next ∧ w.next ≠ self ∧ w.next + 1 ≠ self ∧
            (wb.heap (w.next + 1)).self_object = some b ∧
            (wb.heap (w.next + 1)).descr_object = some db ∧
            wb.heap w.next = wa.heap w.next ∧
            wb.heap self = w.heap self) := by
  constructor
  · intro object type r w' h
    exact descr_get_keeps env fuel w w' self object type r h self hself
  · intro a Ta nx ma w1 da hnext ha hget hbind
    obtain ⟨wa, h1, h2, h3, h4, -⟩ :=
      descr_get_bound env fuel w w1 self a Ta nx ma da hself hnext ha hget hbind
    have hsa : wa.heap self = w.heap self := h3 self (by omega)
    refine ⟨wa, h1, by rw [h4], by rw [h4], hsa, ?_⟩
    intro b Tb mb w3 db hb hget2 hbind2
    have hnext2 : (wa.heap self).next_object = some nx := by rw [hsa]; exact hnext
    obtain ⟨wb, k1, -, k3, k4, -⟩ :=
      descr_get_bound env fuel wa w3 self b Tb nx mb db (by omega) hnext2 hb hget2 hbind2
    rw [h2] at k1 k3 k4
    refine ⟨wb, k1, by omega, by omega, by omega, by rw [k4], by rw [k4], ?_, ?_⟩
    · exact k3 w.next (by omega)
    · rw [k3 self (by omega), hsa]

/-- C11 at a closed instance: the proxy of the function numbered 5 bound to the
instance numbered 12 and then to the instance numbered 14. -/
theorem C11_binding_keeps_parent_witness :
    ((0 : Nat) < methodWorld.next ∧
     (methodWorld.heap 0).next_object = some (.object 5) ∧
     PyObject_GetAttr twoInstanceEnv 1 methodWorld (.object 5) "__get__" =
      some (.ok (.object 10), methodWorld.emit (.GetAttr (.object 5) "__get__")) ∧
     twoInstanceEnv.call (methodWorld.emit (.GetAttr (.object 5) "__get__")).log (.object 10)
        [.object 12, .object 13] none = .ok (.object 11)) ∧
    (∃ wa, NRFunctionTraceWrapper_descr_get twoInstanceEnv 1 methodWorld 0 (some (.object 12))
          (some (.object 13)) = some (.ok (.NRFunctionTraceWrapper methodWorld.next), wa) ∧
        (wa.heap methodWorld.next).self_object = some (.object 12) ∧
        (wa.heap methodWorld.next).descr_object = some (.object 11) ∧
        wa.heap 0 = methodWorld.heap 0 ∧
        ∀ b Tb mb w3 db, b ≠ .Py_None →
          PyObject_GetAttr twoInstanceEnv 1 wa (.object 5) "__get__" = some (.ok mb, w3) →
          twoInstanceEnv.call w3.log mb [b, Tb] none = .ok db →
          ∃ wb, NRFunctionTraceWrapper_descr_get twoInstanceEnv 1 wa 0 (some b) (some Tb) =
              some (.ok (.NRFunctionTraceWrapper (methodWorld.next + 1)), wb) ∧
            methodWorld.next + 1 ≠ methodWorld.next ∧ methodWorld.next ≠ 0 ∧
            methodWorld.next + 1 ≠ 0 ∧
            (wb.heap (methodWorld.next + 1)).self_object = some b ∧
            (wb.heap (methodWorld.next + 1)).descr_object = some db ∧
            wb.heap methodWorld.next = wa.heap methodWorld.next ∧
            wb.heap 0 = methodWorld.heap 0) ∧
    (NRFunctionTraceWrapper_descr_get twoInstanceEnv 1 firstBoundWorld 0 (some (.object 14))
        (some (.object 13))).map
      (fun r => (r.1, (r.2.heap 1).self_object, (r.2.heap 1).descr_object,
        (r.2.heap 2).self_object, (r.2.heap 2).descr_object, r.2.heap 0)) =
      some (.ok (.NRFunctionTraceWrapper 2), some (.object 12), some (.object 11),
        some (.object 14), some (.object 15), methodWorld.heap 0) :=
  ⟨⟨by decide, rfl, rfl, rfl⟩,
    (C11_binding_keeps_parent twoInstanceEnv 1 methodWorld 0 (by decide)).2 (.object 12)
      (.object 13) (.object 5) (.object 10) _ (.object 11) rfl (by decide) rfl rfl,
    rfl⟩

/-- C12, as stated, fails: the function numbered 5 has no `__get__` under the
sample collaborators, and binding its proxy to the instance numbered 12
returns the proxy itself, at address 0, nothing being allocated. -/
theorem C12_counterexample :
    PyObject_GetAttr tracedEnv 1 methodWorld (.object 5) "__get__" =
      some (.error (PyErr_SetString .PyExc_TypeError "no attribute"),
        methodWorld.emit (.GetAttr (.object 5) "__get__")) ∧
    NRFunctionTraceWrapper_descr_get tracedEnv 1 methodWorld 0 (some (.object 12))
        (some (.object 13)) =
      some (.ok (.NRFunctionTraceWrapper 0),
        { heap := methodWorld.heap, next := methodWorld.next,
          log := [.GetAttr (.object 5) "__get__"] }) :=
  ⟨rfl, rfl⟩

/-- C12, amended: for a proxy whose `next_object` has no `__get__`,
`NRFunctionTraceWrapper_descr_get` returns the proxy itself both for the
instance `None` and for any other instance; no object is allocated and the
heap is left as it was. -/
theorem C12_unbindable_returns_self (env : Env) (fuel : Nat) (w w1 : World) (self : Nat)
    (next_object : PyObj) (e : PyErr)
    (hnext : (w.heap self).next_object = some next_object)
    (hget : PyObject_GetAttr env fuel w next_object "__get__" = some (.error e, w1)) :
    (∀ type, NRFunctionTraceWrapper_descr_get env fuel w self (some .Py_None) type =
      some (.ok (.NRFunctionTraceWrapper self), w)) ∧
    (∀ object type, object ≠ some .Py_None →
      NRFunctionTraceWrapper_descr_get env fuel w self object type =
        some (.ok (.NRFunctionTraceWrapper self), w1)) ∧
    w1.heap = w.heap ∧ w1.next = w.next := by
  have f1 := PyObject_GetAttr_frame env fuel _ _ _ _ _ hget
  refine ⟨?_, ?_, f1.1, f1.2⟩
  · intro type
    simp [NRFunctionTraceWrapper_descr_get]
  · intro object type hobject
    simp [NRFunctionTraceWrapper_descr_get, hobject, hnext, hget]

/-- C12 at a closed instance: the proxy of the function numbered 5, which has no
`__get__` under the sample collaborators. -/
theorem C12_unbindable_returns_self_witness :
    ((methodWorld.heap 0).next_object = some (.object 5) ∧
     PyObject_GetAttr tracedEnv 1 methodWorld (.object 5) "__get__" =
      some (.error (PyErr_SetString .PyExc_TypeError "no attribute"),
        methodWorld.emit (.GetAttr (.object 5) "__get__"))) ∧
    (∀ type, NRFunctionTraceWrapper_descr_get tracedEnv 1 methodWorld 0 (some .Py_None) type =
      some (.ok (.NRFunctionTraceWrapper 0), methodWorld)) ∧
    (∀ object type, object ≠ some .Py_None →
      NRFunctionTraceWrapper_descr_get tracedEnv 1 methodWorld 0 object type =
        some (.ok (.NRFunctionTraceWrapper 0),
          methodWorld.emit (.GetAttr (.object 5) "__get__"))) ∧
    (methodWorld.emit (.GetAttr (.object 5) "__get__")).heap = methodWorld.heap ∧
    (methodWorld.emit (.GetAttr (.object 5) "__get__")).next = methodWorld.next :=
  ⟨⟨rfl, rfl⟩,
    C12_unbindable_returns_self tracedEnv 1 methodWorld _ 0 (.object 5) _ rfl rfl⟩

/-- C13: factory equivalence.  Configuring a decorator with a name, a scope
and a boolean flag succeeds and stores them; applying the decorator to a
target is, in every world, the call `wrap(target, name, scope, flag)`, with the
same result and the same effects; the application takes the configuration as
it is and hands none back, so that every application yields a proxy of the
target with that name, that scope and that flag. -/
theorem C13_factory_equivalence (env : Env) (fuel : Nat) (name scope significant target : PyObj)
    (hbool : PyBool_Check significant = true) :
    NRFunctionTraceDecorator_init NRFunctionTraceDecorator_new [name, scope, significant] none =
      (.ok (), { name := some name, scope := some scope,
                 interesting := if significant = .Py_True then 1 else 0 }) ∧
    (∀ w, NRFunctionTraceDecorator_call env fuel w
        { name := some name, scope := some scope,
          interesting := if significant = .Py_True then 1 else 0 } [target] none =
      NRFunctionTraceWrapper_Type_call env fuel w [target, name, scope, significant] none) ∧
    (∀ w proxy w', NRFunctionTraceDecorator_call env fuel w
        { name := some name, scope := some scope,
          interesting := if significant = .Py_True then 1 else 0 } [target] none =
        some (.ok (.NRFunctionTraceWrapper proxy), w') →
      (w'.heap proxy).next_object = some target ∧
      (w'.heap proxy).name = some name ∧
      (w'.heap proxy).scope = some scope ∧
      (w'.heap proxy).interesting = (if significant = .Py_True then 1 else 0) ∧
      (w'.heap proxy).descr_object = none ∧
      (w'.heap proxy).self_object = none) := by
  have hflag : (if (if significant = PyObj.Py_True then (1 : Int) else 0) ≠ 0 then PyObj.Py_True
      else PyObj.Py_False) = significant := by
    cases significant <;> simp_all [PyBool_Check]
  have hcall : ∀ w, NRFunctionTraceDecorator_call env fuel w
        { name := some name, scope := some scope,
          interesting := if significant = .Py_True then 1 else 0 } [target] none =
      NRFunctionTraceWrapper_Type_call env fuel w [target, name, scope, significant] none := by
    intro w
    simp only [NRFunctionTraceDecorator_call, keywordsAccepted, parsedArgument, objArgs, hflag]
    simp
  refine ⟨?_, hcall, ?_⟩
  · simp [NRFunctionTraceDecorator_init, keywordsAccepted, parsedArgument, hbool,
      NRFunctionTraceDecorator_new]
  · intro w proxy w' h
    rw [hcall] at h
    obtain ⟨-, -, -, wrapped, last, -, h0, h1, -, h3, h4, h5, h6, h7⟩ :=
      NRFunctionTraceWrapper_Type_call_fields _ _ _ _ _ _ _ h
    simp only [parsedArgument, List.get?, Option.some.injEq, Option.getD_some] at h0 h5 h6 h7
    subst h0
    exact ⟨h1, h5, h6, h7, h3, h4⟩

/-- C13 at a closed instance: the decorator configured with the name callable
numbered 9, no scope and the flag `True`, applied to the object numbered 5. -/
theorem C13_factory_equivalence_witness :
    PyBool_Check .Py_True = true ∧
    NRFunctionTraceDecorator_call tracedEnv 1 emptyWorld
        { name := some (.object 9), scope := some .Py_None,
          interesting := if PyObj.Py_True = .Py_True then 1 else 0 } [.object 5] none =
      NRFunctionTraceWrapper_Type_call tracedEnv 1 emptyWorld
        [.object 5, .object 9, .Py_None, .Py_True] none ∧
    NRFunctionTraceWrapper_Type_call tracedEnv 1 emptyWorld
        [.object 5, .object 9, .Py_None, .Py_True] none =
      some (.ok (.NRFunctionTraceWrapper 0), upperWorld) :=
  ⟨rfl,
    (C13_factory_equivalence tracedEnv 1 (.object 9) .Py_None .Py_True (.object 5) rfl).2.1
      emptyWorld,
    rfl⟩

/-- C14: the attribute read contract of a proxy.  Without `last_object` the read
fails with `ValueError("object wrapper has not been initialised")` and nothing
is consulted.  Otherwise the proxy itself is asked first: a value found there is
returned; when the name is not found there, the error is dropped and the
result, value or error, is the one of reading the same name on `last_object`.
For a name outside the accessor table the proxy itself is asked through one
generic lookup, and for a `last_object` that is not a proxy the fallback is
one read of the name on that very object. -/
theorem C14_attribute_read (env : Env) (fuel : Nat) (w : World) (self : Nat) (name : String) :
    ((w.heap self).last_object = none →
      PyObject_GetAttr env (fuel + 1) w (.NRFunctionTraceWrapper self) name =
        some (.error notInitialised, w)) ∧
    (∀ last_object, (w.heap self).last_object = some last_object →
      (∀ v w1, PyObject_GenericGetAttr env (PyObject_GetAttr env fuel) w self name =
          some (.ok v, w1) →
        PyObject_GetAttr env (fuel + 1) w (.NRFunctionTraceWrapper self) name =
          some (.ok v, w1)) ∧
      (∀ e w1, PyObject_GenericGetAttr env (PyObject_GetAttr env fuel) w self name =
          some (.error e, w1) →
        PyObject_GetAttr env (fuel + 1) w (.NRFunctionTraceWrapper self) name =
          PyObject_GetAttr env fuel w1 last_object name) ∧
      (name ∉ ["__next_object__", "__last_object__", "__newrelic__", "__module__",
          "__name__", "__doc__", "__dict__"] →
        (∀ v, env.genericGetAttr w.log self (w.heap self).dict name = .ok v →
          PyObject_GetAttr env (fuel + 1) w (.NRFunctionTraceWrapper self) name =
            some (.ok v, w.emit (.GenericGetAttr self name))) ∧
        (∀ e, env.genericGetAttr w.log self (w.heap self).dict name = .error e →
          notProxy last_object →
          PyObject_GetAttr env (fuel + 1) w (.NRFunctionTraceWrapper self) name =
            some (env.getattr (w.log ++ [.GenericGetAttr self name]) last_object name,
              (w.emit (.GenericGetAttr self name)).emit (.GetAttr last_object name))))) := by
  constructor
  · intro hl
    exact PyObject_GetAttr_uninitialised env fuel w self name hl
  · intro l hl
    refine ⟨?_, ?_, ?_⟩
    · intro v w1 h
      simp only [PyObject_GetAttr, NRFunctionTraceWrapper_getattro, hl, h]
    · intro e w1 h
      simp only [PyObject_GetAttr, NRFunctionTraceWrapper_getattro, hl, h]
    · intro hname
      simp only [List.mem_cons, List.mem_singleton, List.not_mem_nil, or_false, not_or] at hname
      obtain ⟨n1, n2, n3, n4, n5, n6, n7⟩ := hname
      have hgen : PyObject_GenericGetAttr env (PyObject_GetAttr env fuel) w self name =
          some (env.genericGetAttr w.log self (w.heap self).dict name,
            w.emit (.GenericGetAttr self name)) := by
        simp only [PyObject_GenericGetAttr, n1, n2, n3, n4, n5, n6, n7, if_false]
      constructor
      · intro v hv
        simp only [PyObject_GetAttr, NRFunctionTraceWrapper_getattro, hl, hgen, hv]
      · intro e he hplain
        simp only [PyObject_GetAttr, NRFunctionTraceWrapper_getattro, hl, hgen, he]
        rw [PyObject_GetAttr_plain env fuel _ l name hplain]
        rfl

/-- C14 at a closed instance: on the proxy of the object numbered 5, the
attribute `cached` is found on the proxy itself and the attribute `other` is
read on the object numbered 5. -/
theorem C14_attribute_read_witness :
    ((methodWorld.heap 0).last_object = some (.object 5) ∧
     "other" ∉ ["__next_object__", "__last_object__", "__newrelic__", "__module__",
          "__name__", "__doc__", "__dict__"] ∧
     lookupEnv.genericGetAttr methodWorld.log 0 (methodWorld.heap 0).dict "other" =
      .error (PyErr_SetString .PyExc_TypeError "no attribute") ∧
     notProxy (.object 5)) ∧
    PyObject_GetAttr lookupEnv 1 methodWorld (.NRFunctionTraceWrapper 0) "other" =
      some (lookupEnv.getattr (methodWorld.log ++ [.GenericGetAttr 0 "other"]) (.object 5)
          "other",
        (methodWorld.emit (.GenericGetAttr 0 "other")).emit (.GetAttr (.object 5) "other")) ∧
    PyObject_GetAttr lookupEnv 1 methodWorld (.NRFunctionTraceWrapper 0) "cached" =
      some (.ok (.object 30), methodWorld.emit (.GenericGetAttr 0 "cached")) ∧
    PyObject_GetAttr lookupEnv 1 methodWorld (.NRFunctionTraceWrapper 0) "other" =
      some (.ok (.PyString "other"),
        { heap := methodWorld.heap, next := methodWorld.next,
          log := [.GenericGetAttr 0 "other", .GetAttr (.object 5) "other"] }) :=
  ⟨⟨rfl, by decide, rfl, fun _ h => PyObj.noConfusion h⟩,
    (((C14_attribute_read lookupEnv 0 methodWorld 0 "other").2 (.object 5) rfl).2.2
      (by decide)).2 _ rfl (fun _ h => PyObj.noConfusion h),
    rfl, rfl⟩

/-- C15: attribute assignment.  On a proxy with a `last_object`, for every
name, the names of the proxy's own accessors included, and every value,
`NRFunctionTraceWrapper_setattro` is the one attribute write of that name and
value on `last_object` and returns its outcome; when `last_object` is not a
proxy this is a single write, the only event; in every case the heap, and so
every field of the proxy, is left as it was.  Without `last_object` it fails
with `ValueError("object wrapper has not been initialised")` and writes
nothing. -/
theorem C15_attribute_write (env : Env) (fuel : Nat) (w : World) (self : Nat) (name : String)
    (value : Option PyObj) :
    (∀ last_object, (w.heap self).last_object = some last_object →
      PyObject_SetAttr env (fuel + 1) w (.NRFunctionTraceWrapper self) name value =
        PyObject_SetAttr env fuel w last_object name value ∧
      (notProxy last_object →
        PyObject_SetAttr env (fuel + 1) w (.NRFunctionTraceWrapper self) name value =
          some (env.setattr w.log last_object name value,
            { heap := w.heap, next := w.next,
              log := w.log ++ [Event.SetAttr last_object name value] }))) ∧
    ((w.heap self).last_object = none →
      PyObject_SetAttr env (fuel + 1) w (.NRFunctionTraceWrapper self) name value =
        some (.error notInitialised, w)) ∧
    (∀ r w', PyObject_SetAttr env (fuel + 1) w (.NRFunctionTraceWrapper self) name value =
        some (r, w') → w'.heap = w.heap ∧ w'.next = w.next) := by
  refine ⟨?_, ?_, ?_⟩
  · intro l hl
    have h1 : PyObject_SetAttr env (fuel + 1) w (.NRFunctionTraceWrapper self) name value =
        PyObject_SetAttr env fuel w l name value := by
      simp only [PyObject_SetAttr, NRFunctionTraceWrapper_setattro, hl]
    refine ⟨h1, ?_⟩
    intro hplain
    rw [h1, PyObject_SetAttr_plain env fuel w l name value hplain]
    rfl
  · intro hl
    simp only [PyObject_SetAttr, NRFunctionTraceWrapper_setattro, hl]
  · intro r w' h
    exact PyObject_SetAttr_frame env (fuel + 1) _ _ _ _ _ _ h

/-- C15 at a closed instance: assigning `__name__` on the proxy of the object
numbered 5 writes `__name__` on that object. -/
theorem C15_attribute_write_witness :
    ((methodWorld.heap 0).last_object = some (.object 5) ∧ notProxy (.object 5)) ∧
    PyObject_SetAttr tracedEnv 1 methodWorld (.NRFunctionTraceWrapper 0) "__name__"
        (some (.PyString "renamed")) =
      some (tracedEnv.setattr methodWorld.log (.object 5) "__name__"
          (some (.PyString "renamed")),
        { heap := methodWorld.heap, next := methodWorld.next,
          log := methodWorld.log ++
            [Event.SetAttr (.object 5) "__name__" (some (.PyString "renamed"))] }) :=
  ⟨⟨rfl, fun _ h => PyObj.noConfusion h⟩,
    ((C15_attribute_write tracedEnv 0 methodWorld 0 "__name__"
      (some (.PyString "renamed"))).1 (.object 5) rfl).2 (fun _ h => PyObj.noConfusion h)⟩

/-- C16: dummy-transaction degradation.  Creating a trace handle against a
running transaction without an inner agent transaction, with a text name and
a text or absent scope, succeeds and adds no event, so that the node allocator
is not called; the handle keeps the transaction and has no node.  On every
handle without a node, `__enter__` returns the handle with every field as it
was and `__exit__` returns `None` with every field as it was; each adds only
the record of its own invocation to the log, no collaborator being called, and
neither fails. -/
theorem C16_dummy_degrades (env : Env) (w : World) (t : NRTransactionObject)
    (name scope flag : PyObj)
    (hrunning : t.transaction_state = .NR_TRANSACTION_STATE_RUNNING)
    (hdummy : t.transaction = none)
    (hname : (PyString_Check name || PyUnicode_Check name) = true)
    (hscope : scope = .Py_None ∨ (PyString_Check scope || PyUnicode_Check scope) = true)
    (hflag : PyBool_Check flag = true) :
    NRFunctionTrace_init env w NRFunctionTrace_new [.NRTransaction t, name, scope, flag] none =
      (.ok (), { parent_transaction := some t, transaction_trace := none,
                 saved_trace_node := none, interesting := 1 }, w) ∧
    (∀ (handle : NRFunctionTraceObject) (w1 : World), handle.transaction_trace = none →
      NRFunctionTrace_enter env w1 handle =
        (.ok (.NRFunctionTrace handle), handle,
          { heap := w1.heap, next := w1.next, log := w1.log ++ [Event.FunctionTrace_enter] }) ∧
      ∀ args, NRFunctionTrace_exit env w1 handle args =
        some (.ok .Py_None, handle,
          { heap := w1.heap, next := w1.next,
            log := w1.log ++ [Event.FunctionTrace_exit args] })) := by
  have h1 : (!PyString_Check name && !PyUnicode_Check name) = false := by
    revert hname; cases PyString_Check name <;> cases PyUnicode_Check name <;> simp
  have h2 : (!PyString_Check scope && !PyUnicode_Check scope && (scope != .Py_None)) = false := by
    rcases hscope with rfl | hscope
    · rfl
    · revert hscope
      cases PyString_Check scope <;> cases PyUnicode_Check scope <;> simp
  constructor
  · simp [NRFunctionTrace_init, keywordsAccepted, parsedArgument, hflag, h1, h2,
      NRFunctionTrace_new, hrunning, hdummy]
  · intro handle w1 hnode
    constructor
    · simp only [NRFunctionTrace_enter, hnode, World.emit]
    · intro args
      simp only [NRFunctionTrace_exit, hnode, World.emit]

/-- C16 at a closed instance: the running dummy transaction. -/
theorem C16_dummy_degrades_witness :
    (dummyTransaction.transaction_state = .NR_TRANSACTION_STATE_RUNNING ∧
     dummyTransaction.transaction = none ∧
     (PyString_Check (.PyString "X") || PyUnicode_Check (.PyString "X")) = true ∧
     PyBool_Check .Py_True = true) ∧
    NRFunctionTrace_init tracedEnv emptyWorld NRFunctionTrace_new
        [.NRTransaction dummyTransaction, .PyString "X", .Py_None, .Py_True] none =
      (.ok (), { parent_transaction := some dummyTransaction, transaction_trace := none,
                 saved_trace_node := none, interesting := 1 }, emptyWorld) :=
  ⟨⟨rfl, rfl, rfl, rfl⟩,
    (C16_dummy_degrades tracedEnv emptyWorld dummyTransaction (.PyString "X") .Py_None
      .Py_True rfl rfl rfl (Or.inl rfl) rfl).1⟩

/-- C17: argument validation of a trace handle.  Whatever the state of the
transaction, a name that is not text is rejected with `TypeError`, and with a
text name a scope that is neither text nor `None` is rejected with
`TypeError`; in both cases no event is added, so that no node is allocated, and
the handle is left as `NRFunctionTrace_new` made it: no transaction reference,
no node, no saved cursor. -/
theorem C17_argument_validation (env : Env) (w : World) (t : NRTransactionObject)
    (name scope flag : PyObj) (hflag : PyBool_Check flag = true) :
    ((PyString_Check name || PyUnicode_Check name) = false →
      NRFunctionTrace_init env w NRFunctionTrace_new [.NRTransaction t, name, scope, flag]
          none =
        (.error (PyErr_SetString .PyExc_TypeError
          ("expected string or Unicode for name, found type '" ++ tp_name env name ++ "'")),
          NRFunctionTrace_new, w) ∧
      NRFunctionTrace_init env w NRFunctionTrace_new [.NRTransaction t, name] none =
        (.error (PyErr_SetString .PyExc_TypeError
          ("expected string or Unicode for name, found type '" ++ tp_name env name ++ "'")),
          NRFunctionTrace_new, w)) ∧
    ((PyString_Check name || PyUnicode_Check name) = true →
      (PyString_Check scope || PyUnicode_Check scope) = false → scope ≠ .Py_None →
      NRFunctionTrace_init env w NRFunctionTrace_new [.NRTransaction t, name, scope, flag]
          none =
        (.error (PyErr_SetString .PyExc_TypeError
          ("scope argument must be string, Unicode, or None, found type '" ++
            tp_name env scope ++ "'")),
          NRFunctionTrace_new, w) ∧
      NRFunctionTrace_init env w NRFunctionTrace_new [.NRTransaction t, name, scope] none =
        (.error (PyErr_SetString .PyExc_TypeError
          ("scope argument must be string, Unicode, or None, found type '" ++
            tp_name env scope ++ "'")),
          NRFunctionTrace_new, w)) ∧
    NRFunctionTrace_new.parent_transaction = none ∧
    NRFunctionTrace_new.transaction_trace = none ∧
    NRFunctionTrace_new.saved_trace_node = none := by
  have hb : PyBool_Check .Py_True = true := rfl
  refine ⟨?_, ?_, rfl, rfl, rfl⟩
  · intro hname
    have h1 : (!PyString_Check name && !PyUnicode_Check name) = true := by
      revert hname; cases PyString_Check name <;> cases PyUnicode_Check name <;> simp
    constructor
    · simp [NRFunctionTrace_init, keywordsAccepted, parsedArgument, hflag, h1]
    · simp [NRFunctionTrace_init, keywordsAccepted, parsedArgument, hb, h1]
  · intro hname hscope hnone
    have h1 : (!PyString_Check name && !PyUnicode_Check name) = false := by
      revert hname; cases PyString_Check name <;> cases PyUnicode_Check name <;> simp
    have h2 : (!PyString_Check scope && !PyUnicode_Check scope && (scope != .Py_None)) =
        true := by
      revert hscope
      cases PyString_Check scope <;> cases PyUnicode_Check scope <;> simp [bne_iff_ne, hnone]
    constructor
    · simp [NRFunctionTrace_init, keywordsAccepted, parsedArgument, hflag, h1, h2]
    · simp [NRFunctionTrace_init, keywordsAccepted, parsedArgument, hb, h1, h2]

/-- C17 at a closed instance: the name `None` against the sample transaction. -/
theorem C17_argument_validation_witness :
    (PyBool_Check .Py_True = true ∧
     (PyString_Check .Py_None || PyUnicode_Check .Py_None) = false) ∧
    NRFunctionTrace_init tracedEnv emptyWorld NRFunctionTrace_new
        [.NRTransaction sampleTransaction, .Py_None, .Py_None, .Py_True] none =
      (.error (PyErr_SetString .PyExc_TypeError
        ("expected string or Unicode for name, found type '" ++ tp_name tracedEnv .Py_None ++
          "'")),
        NRFunctionTrace_new, emptyWorld) :=
  ⟨⟨rfl, rfl⟩,
    ((C17_argument_validation tracedEnv emptyWorld sampleTransaction .Py_None .Py_None
      .Py_True rfl).1 rfl).1⟩

/-- C18: `__exit__` on a trace handle backed by a node.  For a handle created
with the flag `flag` against a running real transaction and then entered,
`__exit__` returns `None` and performs, in this order: one
record-stop-and-pop on the node with the cursor that `__enter__` saved; one
discard query with the node, the flag given at creation (1 for `True`, 0 for
`False`) and the inner transaction of the owning transaction; and the
conversion of the node exactly when the query answered that the node was not
discarded.  Afterwards the saved cursor of the handle is cleared and its other
fields are as they were. -/
theorem C18_exit_sequence (env : Env) (w w2 : World) (t : NRTransactionObject)
    (inner : TxnRef) (name scope flag : PyObj) (args : List PyObj)
    (hname : (PyString_Check name || PyUnicode_Check name) = true)
    (hscope : (PyString_Check scope || PyUnicode_Check scope || decide (scope = .Py_None)) = true)
    (hflag : PyBool_Check flag = true)
    (hrunning : t.transaction_state = .NR_TRANSACTION_STATE_RUNNING)
    (hreal : t.transaction = some inner) :
    ∃ created w1 node saved,
      NRFunctionTrace_Type_call env w [.NRTransaction t, name, scope, flag] none =
        (.ok created, w1) ∧
      created.transaction_trace = some node ∧
      created.interesting = (if flag = .Py_True then 1 else 0) ∧
      NRFunctionTrace_enter env w1 created =
        (.ok (.NRFunctionTrace { created with saved_trace_node := saved }),
          { created with saved_trace_node := saved },
          { heap := w1.heap, next := w1.next,
            log := w1.log ++ [Event.FunctionTrace_enter,
              Event.record_starttime_and_push_current node] }) ∧
      saved = env.pushCurrent (w1.log ++ [Event.FunctionTrace_enter]) node ∧
      NRFunctionTrace_exit env w2 { created with saved_trace_node := saved } args =
        some (.ok .Py_None, { created with saved_trace_node := none },
          { heap := w2.heap, next := w2.next,
            log := w2.log ++
              [Event.FunctionTrace_exit args,
               Event.record_stoptime_and_pop_current node saved,
               Event.delete_if_not_slow_enough node (if flag = .Py_True then 1 else 0)
                 (some inner)] ++
              (if env.deleteIfNotSlowEnough
                  (w2.log ++ [Event.FunctionTrace_exit args,
                    Event.record_stoptime_and_pop_current node saved])
                  node (if flag = .Py_True then 1 else 0) (some inner) = true
               then []
               else [Event.convert_from_stack_based node (some inner)]) }) := by
  have hcreate := NRFunctionTrace_Type_call_real env w t inner name scope flag hname hscope
    hflag hrunning hreal
  refine ⟨_, _, _, _, hcreate, rfl, rfl, ?_, rfl, ?_⟩
  · simp [NRFunctionTrace_enter, nr_node_header__record_starttime_and_push_current, World.emit]
  · simp only [NRFunctionTrace_exit, World.emit, nr_node_header__record_stoptime_and_pop_current,
      nr_node_header__delete_if_not_slow_enough, nr_web_transaction__convert_from_stack_based,
      hreal, List.append_assoc, List.singleton_append, List.cons_append, List.nil_append]
    split_ifs <;> simp_all

/-- C18 at a closed instance: the handle of the sample transaction created with
the flag `False`; the node is kept under the sample collaborators, so that it
is converted. -/
theorem C18_exit_sequence_witness :
    ((PyString_Check (.PyString "X") || PyUnicode_Check (.PyString "X")) = true ∧
     PyBool_Check .Py_False = true ∧
     sampleTransaction.transaction_state = .NR_TRANSACTION_STATE_RUNNING ∧
     sampleTransaction.transaction = some 7) ∧
    (∃ created w1 node saved,
      NRFunctionTrace_Type_call tracedEnv emptyWorld
          [.NRTransaction sampleTransaction, .PyString "X", .Py_None, .Py_False] none =
        (.ok created, w1) ∧
      created.transaction_trace = some node ∧
      created.interesting = (if PyObj.Py_False = .Py_True then 1 else 0) ∧
      NRFunctionTrace_enter tracedEnv w1 created =
        (.ok (.NRFunctionTrace { created with saved_trace_node := saved }),
          { created with saved_trace_node := saved },
          { heap := w1.heap, next := w1.next,
            log := w1.log ++ [Event.FunctionTrace_enter,
              Event.record_starttime_and_push_current node] }) ∧
      saved = tracedEnv.pushCurrent (w1.log ++ [Event.FunctionTrace_enter]) node ∧
      NRFunctionTrace_exit tracedEnv emptyWorld { created with saved_trace_node := saved } [] =
        some (.ok .Py_None, { created with saved_trace_node := none },
          { heap := emptyWorld.heap, next := emptyWorld.next,
            log := emptyWorld.log ++
              [Event.FunctionTrace_exit [],
               Event.record_stoptime_and_pop_current node saved,
               Event.delete_if_not_slow_enough node
                 (if PyObj.Py_False = .Py_True then 1 else 0) (some 7)] ++
              (if tracedEnv.deleteIfNotSlowEnough
                  (emptyWorld.log ++ [Event.FunctionTrace_exit [],
                    Event.record_stoptime_and_pop_current node saved])
                  node (if PyObj.Py_False = .Py_True then 1 else 0) (some 7) = true
               then []
               else [Event.convert_from_stack_based node (some 7)]) })) ∧
    NRFunctionTrace_exit tracedEnv emptyWorld
        { parent_transaction := some sampleTransaction, transaction_trace := some 1,
          saved_trace_node := none, interesting := 0 } [] =
      some (.ok .Py_None,
        { parent_transaction := some sampleTransaction, transaction_trace := some 1,
          saved_trace_node := none, interesting := 0 },
        { heap := emptyWorld.heap, next := 0,
          log := [.FunctionTrace_exit [], .record_stoptime_and_pop_current 1 none,
            .delete_if_not_slow_enough 1 0 (some 7), .convert_from_stack_based 1 (some 7)] }) :=
  ⟨⟨rfl, rfl, rfl, rfl⟩,
    C18_exit_sequence tracedEnv emptyWorld emptyWorld sampleTransaction 7 (.PyString "X")
      .Py_None .Py_False [] rfl rfl rfl rfl rfl,
    rfl⟩

/-- C19, the code at the failing input: the owner is a class defined in Python,
a heap type whose own type is the builtin `type`.  The wrapper is stored
through the dictionary of the type, not through the attribute interface; the
original callable is returned and is the `wrapped_object` of the wrapper. -/
theorem C19_python_class_takes_dict_route :
    pythonClass.isType = true ∧ pythonClass.heapType = true ∧
    NRWrappedCallable_WrapPreFunction sampleTypes classInstallEnv [] "module" (some "Class")
        "m" (.object 8) 0 =
      (.ok (.object 5),
        [.LookupCallable "module" (some "Class") "m",
         .TypeDict_SetItemString (.object 20) "m"
           { wrapped_object := some (.object 5), function_type := 1,
             function_object := some (.object 8), run_once := 0 }]) :=
  ⟨rfl, rfl, rfl⟩

/-- C20: the call of a wrapped callable with a pre function, whatever
`run_once` holds and in every world, that is on every call.  The pre function
is called once with the arguments of the call, before the wrapped callable.
When it fails, the call fails with its error and its call is the only event,
the wrapped callable not being called.  When it succeeds, its value is
dropped, the wrapped callable is called once with the same arguments, and the
outcome of the call is the result or error of the wrapped callable. -/
theorem C20_pre_function_call (k : FunctionTypes) (env : Env) (w : World)
    (self : NRWrappedCallableObject) (args : List PyObj) (kwds : Kwds) (g f : PyObj)
    (hdistinct : k.NR_FUNCTION_TYPE_PRE_FUNCTION ≠ k.NR_FUNCTION_TYPE_POST_FUNCTION)
    (htype : self.function_type = k.NR_FUNCTION_TYPE_PRE_FUNCTION)
    (hfunction : self.function_object = some g)
    (hwrapped : self.wrapped_object = some f) :
    (∀ e, env.call w.log g args kwds = .error e →
      NRWrappedCallable_call k env w self args kwds =
        some (.error e,
          { heap := w.heap, next := w.next, log := w.log ++ [Event.Call g args kwds] })) ∧
    (∀ v, env.call w.log g args kwds = .ok v →
      NRWrappedCallable_call k env w self args kwds =
        some (env.call (w.log ++ [Event.Call g args kwds]) f args kwds,
          { heap := w.heap, next := w.next,
            log := w.log ++ [Event.Call g args kwds, Event.Call f args kwds] })) := by
  have hpost : ¬ self.function_type = k.NR_FUNCTION_TYPE_POST_FUNCTION := by
    rw [htype]; exact hdistinct
  constructor
  · intro e he
    simp [NRWrappedCallable_call, htype, hfunction, PyObject_Call, he, World.emit]
  · intro v hv
    simp [NRWrappedCallable_call, NRWrappedCallable_call_wrapped, htype, hfunction, hwrapped,
      PyObject_Call, hv, World.emit, hdistinct]

/-- C20 at a closed instance: the pre function numbered 8 returns, and the
wrapped callable numbered 5 is then called, with `run_once` set. -/
theorem C20_pre_function_call_witness :
    (sampleTypes.NR_FUNCTION_TYPE_PRE_FUNCTION ≠ sampleTypes.NR_FUNCTION_TYPE_POST_FUNCTION ∧
     (preWrapper 1).function_type = sampleTypes.NR_FUNCTION_TYPE_PRE_FUNCTION ∧
     (preWrapper 1).function_object = some (.object 8) ∧
     (preWrapper 1).wrapped_object = some (.object 5) ∧
     tracedEnv.call emptyWorld.log (.object 8) [.PyString "abc"] none =
      .ok (.PyString "abc")) ∧
    NRWrappedCallable_call sampleTypes tracedEnv emptyWorld (preWrapper 1) [.PyString "abc"]
        none =
      some (tracedEnv.call (emptyWorld.log ++ [Event.Call (.object 8) [.PyString "abc"] none])
          (.object 5) [.PyString "abc"] none,
        { heap := emptyWorld.heap, next := emptyWorld.next,
          log := emptyWorld.log ++ [Event.Call (.object 8) [.PyString "abc"] none,
            Event.Call (.object 5) [.PyString "abc"] none] }) :=
  ⟨⟨by decide, rfl, rfl, rfl, rfl⟩,
    (C20_pre_function_call sampleTypes tracedEnv emptyWorld (preWrapper 1) [.PyString "abc"]
      none (.object 8) (.object 5) (by decide) rfl rfl rfl).2 _ rfl⟩

end NewRelic
